import Mathlib

/-!
Verification of the MonIS SNMP polling agent (snmp_monitor.py and the
handlers package) against its natural-language specification.

Python strings are modelled as `List Char` (`Str`); Python `None` as
`Option.none`; database rows as Lean structures; timestamps as rationals
(minutes since an arbitrary epoch).  JSON (de)serialisation at the
`result.val` boundary is modelled by storing the parsed structure (a list
of OID/value pairs) directly, since every consumer immediately decodes it.
Network and database I/O are modelled as explicit state passing over a
`MonState`; SNMP device behaviour enters as an explicit function parameter.
-/

abbrev Str := List Char

/-- Whitespace as recognised by Python's `str.strip` / `str.split` on ASCII. -/
def isWs (c : Char) : Bool :=
  c = ' ' || c = '\t' || c = '\n' || c = '\r' || c = '\x0b' || c = '\x0c'

/-- `s.startswith(p)` on strings-as-lists. -/
def strStartsWith : Str → Str → Bool
  | _, [] => true
  | [], _ :: _ => false
  | c :: cs, p :: ps => c = p && strStartsWith cs ps

/-- `s.endswith(p)`. -/
def strEndsWith (s p : Str) : Bool :=
  strStartsWith s.reverse p.reverse

/-- `ch in s` for a single character. -/
def strHasChar (s : Str) (ch : Char) : Bool :=
  s.any (fun c => c = ch)

/-- `sub in s` for a substring. -/
def strHasSub : Str → Str → Bool
  | s, sub =>
    match s with
    | [] => sub.isEmpty
    | _ :: rest => strStartsWith s sub || strHasSub rest sub

/-- Python `str.strip()`: drop leading and trailing whitespace. -/
def pyStrip (s : Str) : Str :=
  ((s.dropWhile isWs).reverse.dropWhile isWs).reverse

/-- Python `str.lower()` (ASCII). -/
def pyLower (s : Str) : Str :=
  s.map Char.toLower

/-- Python `s.split(sep, 1)`: the part before and after the first `sep`,
when `sep` occurs. -/
def splitOnceChar (sep : Char) : Str → Option (Str × Str)
  | [] => none
  | c :: rest =>
    if c = sep then some ([], rest)
    else
      match splitOnceChar sep rest with
      | some (a, b) => some (c :: a, b)
      | none => none

/-- Python `s.split()`: split on whitespace runs, discarding empty pieces. -/
def pySplitWs (s : Str) : List Str :=
  (s.foldr
    (fun c acc =>
      if isWs c then [] :: acc
      else
        match acc with
        | [] => [[c]]
        | t :: ts => (c :: t) :: ts)
    []).filter (fun t => !t.isEmpty)

/-- Python `' '.flatten(parts)` (generic separator). -/
def joinWith (sep : Char) : List Str → Str
  | [] => []
  | [x] => x
  | x :: xs => x ++ sep :: joinWith sep xs

/-- Python `s.split('.')` — keeps empty components, `''.split('.') = ['']`. -/
def splitDot (s : Str) : List Str :=
  s.foldr
    (fun c acc =>
      if c = '.' then [] :: acc
      else
        match acc with
        | [] => [[c]]
        | t :: ts => (c :: t) :: ts)
    [[]]

/-- Python's `s.isdigit()` restricted to ASCII digits. -/
def isDigitStr (s : Str) : Bool :=
  !s.isEmpty && s.all (fun c => c.isDigit)

/-- `int(s)` on a string of ASCII digits. -/
def digitsToNat (s : Str) : Nat :=
  s.foldl (fun a c => a * 10 + (c.toNat - '0'.toNat)) 0

/-- `s[-n:]` — the last `n` elements (the whole list when shorter). -/
def lastN (n : Nat) (l : List Str) : List Str :=
  l.drop (l.length - n)

/-- Decimal rendering of a natural number, as Python's `str(n)`. -/
def natToStr (n : Nat) : Str :=
  (Nat.repr n).data

namespace ArpHandler

/-- `ArpHandler.extract_ip_from_oid`: the last four dot components joined
when all are numeric, else `None`. -/
def extract_ip_from_oid (oid : Str) : Option Str :=
  let parts := splitDot oid
  if 4 ≤ parts.length && (lastN 4 parts).all isDigitStr then
    some (joinWith '.' (lastN 4 parts))
  else
    none

/-- `ArpHandler.extract_ip_and_ifindex_from_oid`: for
`…<base>.<k>.<a>.<b>.<c>.<d>` with the trailing five components numeric,
`(a.b.c.d, k)`; otherwise the IP-only fallback with no ifIndex. -/
def extract_ip_and_ifindex_from_oid (oid : Str) : Option Str × Option Nat :=
  let parts := splitDot oid
  if 5 ≤ parts.length then
    let ipParts := lastN 4 parts
    let ifIndexPart := parts.getD (parts.length - 5) []
    if ipParts.all isDigitStr && isDigitStr ifIndexPart then
      (some (joinWith '.' ipParts), some (digitsToNat ifIndexPart))
    else
      (extract_ip_from_oid oid, none)
  else
    (extract_ip_from_oid oid, none)

end ArpHandler

/-- The hex alphabet accepted by both MAC parsers. -/
def hexChars : Str := "0123456789abcdefABCDEF".data

/-- Membership in the hex alphabet, `c in '0123456789abcdefABCDEF'`. -/
def isHexChar (c : Char) : Bool := hexChars.contains c

/-- Chunking into pairs, `[clean[i:i+2] for i in range(0, 12, 2)]`. -/
def chunk2 : Str → List Str
  | [] => []
  | [c] => [[c]]
  | a :: b :: r => [a, b] :: chunk2 r

/-- `':'.flatten` of the two-character chunks. -/
def colonJoinPairs (s : Str) : Str := joinWith ':' (chunk2 s)

/-- The part of `s` after the first occurrence of `sub`
(`s.split(sub)[1]` prefix-portion semantics), `none` when absent. -/
def afterSub (sub : Str) : Str → Option Str
  | [] => if sub.isEmpty then some [] else none
  | c :: rest =>
    if strStartsWith (c :: rest) sub then some ((c :: rest).drop sub.length)
    else afterSub sub rest

/-- Python `s.replace('0x', '')`: left-to-right removal of `0x` pairs
(case-sensitive, exactly as `str.replace`). -/
def remove0x : Str → Str
  | [] => []
  | [c] => [c]
  | a :: b :: rest =>
    if a = '0' && b = 'x' then remove0x rest
    else a :: remove0x (b :: rest)

namespace MacTableHandler

/-- `normalize_mac_str` from `mac_table_handler.py`: strip, drop a
`Hex-STRING:` prefix (splitting at the first colon), drop an `INTEGER:`-like
leading token, drop a `0x` prefix, erase every non-hex character, and when
exactly twelve hex digits remain return them lowercased and colon-grouped. -/
def normalize_mac_str (s : Str) : Option Str :=
  if s.isEmpty then none else
  let ss := pyStrip s
  let ss :=
    if strStartsWith (pyLower ss) "hex-string:".data then
      match splitOnceChar ':' ss with
      | some (_, rest) => pyStrip rest
      | none => ss
    else ss
  let ss :=
    if strHasChar ss ':' && !(strHasChar ss '\n' || strHasChar ss '\r') &&
        strHasChar ss ' ' &&
        (match pySplitWs ss with
         | [] => false
         | t :: _ => strEndsWith t [':']) then
      joinWith ' ' (pySplitWs ss).tail
    else ss
  let ss := if strStartsWith (pyLower ss) "0x".data then ss.drop 2 else ss
  let clean := ss.filter isHexChar
  if clean.length = 12 && clean.all isHexChar then
    some (colonJoinPairs (pyLower clean))
  else
    none

end MacTableHandler

namespace ArpHandler

/-- `format_mac_address` from `arp_handler.py`.  Note: unlike
`normalize_mac_str` it never lowercases, the `0x` test is a substring test
on the lowered value while the removal is case-sensitive, and an
unrecognised value is returned unchanged. -/
def format_mac_address (value : Str) : Str :=
  if strHasSub value "Hex-STRING:".data then
    match afterSub "Hex-STRING:".data value with
    | some rest =>
      let hexPart := pyStrip rest
      let hexClean := (hexPart.filter (fun c => !(c = ' '))).filter (fun c => !(c = ':'))
      if hexClean.length = 12 then colonJoinPairs hexClean else value
    | none => value
  else if strHasSub (pyLower value) "0x".data then
    let hexPart := (remove0x value).filter (fun c => !(c = ' '))
    if hexPart.length = 12 then colonJoinPairs hexPart else value
  else if value.length = 12 && value.all isHexChar then
    colonJoinPairs value
  else
    value

end ArpHandler

/-- The canonical lowercase colon-separated MAC form `aa:bb:cc:dd:ee:ff`
that the specification describes, written out positionally. -/
def macColonForm : Str → Str
  | [a, b, c, d, e, f, g, h, i, j, k, l] =>
    [a, b, ':', c, d, ':', e, f, ':', g, h, ':', i, j, ':', k, l]
  | s => s

/-- A MAC written as space-separated byte pairs, as inside a
`Hex-STRING:` value. -/
def macSpacedForm : Str → Str
  | [a, b, c, d, e, f, g, h, i, j, k, l] =>
    [a, b, ' ', c, d, ' ', e, f, ' ', g, h, ' ', i, j, ' ', k, l]
  | s => s

/-- Python float `x % m` for positive `m`: `x - m * floor(x / m)`. -/
def pymod (x m : ℚ) : ℚ := x - m * ⌊x / m⌋

/-- The scheduling fields of a `mon.crontab` row, as read by
`should_execute_task`.  `none` models SQL NULL; timestamps are rational
minutes. -/
structure CronSched where
  days : Option Nat
  hours : Option Nat
  minutes : Option Nat
  startdt : Option ℚ
  lastdt : Option ℚ
deriving DecidableEq

/-- `SNMPMonitor.should_execute_task` (snmp_monitor.py:129-210).
`dayStart` stands for `datetime(now.year, now.month, now.day)`, the start
of the current day.  The source's ISO-string fallback parsing of
`startdt`/`lastdt` is out of scope: the DB driver hands over datetimes. -/
def should_execute_task (ct : CronSched) (now dayStart : ℚ) : Bool :=
  let days := ct.days.getD 0
  let hours := ct.hours.getD 0
  let minutes := ct.minutes.getD 0
  let totalIntervalMinutes : ℚ :=
    if days * 24 * 60 + hours * 60 + minutes = 0 then 1
    else ((days * 24 * 60 + hours * 60 + minutes : Nat) : ℚ)
  let refOpt : Option ℚ :=
    match ct.startdt with
    | some startdt => if startdt > now then none else some startdt
    | none => some dayStart
  match refOpt with
  | none => false
  | some ref0 =>
    let referenceTime :=
      match ct.lastdt with
      | some lastRun => lastRun
      | none => ref0
    let totalDiffMinutes := now - referenceTime
    if totalDiffMinutes < totalIntervalMinutes then false
    else
      let intervalsPassed := ⌊totalDiffMinutes / totalIntervalMinutes⌋
      let timeSinceLastInterval := pymod totalDiffMinutes totalIntervalMinutes
      if 1 ≤ intervalsPassed ∧ timeSinceLastInterval ≤ 1 then true else false

/-- The due condition exactly as the claim states it: interval from the
d/h/m fields (1 when zero), reference `lastDt` else a past `startDt` else
today at 00:00, `startDt` not in the future, and
`elapsed ≥ interval ∧ elapsed mod interval ≤ 1`. -/
def cron_due_spec (ct : CronSched) (now dayStart : ℚ) : Prop :=
  let intervalMin : ℚ :=
    if (ct.days.getD 0) * 1440 + (ct.hours.getD 0) * 60 + ct.minutes.getD 0 = 0 then 1
    else (((ct.days.getD 0) * 1440 + (ct.hours.getD 0) * 60 + ct.minutes.getD 0 : Nat) : ℚ)
  let ref : ℚ :=
    match ct.lastdt with
    | some l => l
    | none =>
      match ct.startdt with
      | some s => s
      | none => dayStart
  (∀ s, ct.startdt = some s → s ≤ now) ∧
  intervalMin ≤ now - ref ∧ pymod (now - ref) intervalMin ≤ 1

/-- Scalar JSON/SNMP values as they appear inside decoded walk payloads. -/
inductive PyScalar
  | null
  | str (s : Str)
  | int (n : Int)
deriving DecidableEq

/-- A Python value stored in a `result.val` / `result.cval` column:
NULL, a text value, an integer, or a JSON-encoded list of `(oid, value)`
pairs (stored already parsed; every consumer immediately `json.loads` it). -/
inductive PyVal
  | null
  | str (s : Str)
  | int (n : Int)
  | json (items : List (Str × PyScalar))
deriving DecidableEq

/-- Python truthiness of a `PyVal` (`if not val: ...`). -/
def PyVal.truthy : PyVal → Bool
  | .null => false
  | .str s => !s.isEmpty
  | .int n => n != 0
  | .json l => !l.isEmpty

/-- One row of `mon.result`. -/
structure ResultRow where
  node_id : Nat := 0
  request_id : Nat := 0
  journal_id : Nat := 0
  val : PyVal := .null
  cval : PyVal := .null
  key : Option Str := none
  duration : Int := 0
  err : Option Str := none
  dt : ℚ := 0
deriving DecidableEq

/-- `SNMPMonitor.update_result_record` (snmp_monitor.py:343-371): the SQL
`UPDATE mon.result SET … WHERE node_id = %s AND request_id = %s AND
journal_id = %s AND val IS NULL AND err IS NULL` applied to a table held
as a list of rows. -/
def update_result_record (tbl : List ResultRow)
    (nodeId requestId journalId : Nat) (handlerResult : ResultRow) : List ResultRow :=
  tbl.map fun row =>
    if row.node_id = nodeId ∧ row.request_id = requestId ∧ row.journal_id = journalId ∧
        row.val = PyVal.null ∧ row.err = none then
      { row with
          val := handlerResult.val
          cval := handlerResult.cval
          key := handlerResult.key
          duration := handlerResult.duration
          err := handlerResult.err
          dt := handlerResult.dt }
    else row

/-- One row of `mon.node` (the columns the core reads or writes). -/
structure NodeRow where
  id : Nat
  name : Str := []
  sysname : Option PyVal := none
  sysobjectid : Option PyVal := none
  snmp_last_dt : Option ℚ := none
  manage : Bool := true
deriving DecidableEq

/-- One row of `mon.request` as handed to handlers. -/
structure Request where
  id : Nat
  name : Str := []
  oid : Str := []
deriving DecidableEq

/-- Truthiness of the nullable `err` column (`if r.get('err')`). -/
def truthyErr : Option Str → Bool
  | none => false
  | some s => !s.isEmpty

/-- The `info` dict accumulated by `HealthHandler.process_raw_data`
(a key is present exactly when the corresponding field is `some`). -/
structure HealthInfo where
  sysName : Option PyVal := none
  sysObjectID : Option PyVal := none
  sysUpTime : Option PyVal := none
deriving DecidableEq

/-- Python truthiness of the `info` dict (`if info:`). -/
def HealthInfo.truthy (i : HealthInfo) : Bool :=
  i.sysName.isSome || i.sysObjectID.isSome || i.sysUpTime.isSome

namespace HealthHandler

/-- The scan loop of `HealthHandler.process_raw_data`
(health_handler.py:18-28): skip rows with a truthy `err` or falsy `val`;
lower the key (`r.get('key', '').lower()` raises `AttributeError` when the
key column is NULL, modelled as the error case); match the three
sysName / sysObjectID / sysUpTime patterns. -/
def build_health_info_from (info : HealthInfo) : List ResultRow → Except Str HealthInfo
  | [] => .ok info
  | r :: rest =>
    if truthyErr r.err || !r.val.truthy then build_health_info_from info rest
    else
      match r.key with
      | none => .error "AttributeError".data
      | some k =>
        let kl := pyLower k
        let info :=
          if strHasSub kl "sysname".data || strHasSub kl "1.3.6.1.2.1.1.5".data then
            { info with sysName := some r.val }
          else info
        let info :=
          if strHasSub kl "sysobjectid".data || strHasSub kl "1.3.6.1.2.1.1.2".data then
            { info with sysObjectID := some r.val }
          else info
        let info :=
          if strHasSub kl "sysuptime".data || strHasSub kl "1.3.6.1.2.1.1.3".data then
            { info with sysUpTime := some r.val }
          else info
        build_health_info_from info rest

/-- The whole scan, starting from the empty dict. -/
def build_health_info (raw : List ResultRow) : Except Str HealthInfo :=
  build_health_info_from {} raw

/-- `HealthHandler.save_health_info` (health_handler.py:59-75): the SQL
`UPDATE mon.node SET sysname = %s, sysobjectid = %s, snmp_last_dt = %s
WHERE id = %s`, with `info.get('sysName')` / `info.get('sysObjectID')`
as the bound values — `None` (SQL NULL) when the key is absent. -/
def save_health_info (nodes : List NodeRow) (nodeId : Nat) (info : HealthInfo)
    (now : ℚ) : List NodeRow :=
  nodes.map fun nd =>
    if nd.id = nodeId then
      { nd with
          sysname := info.sysName
          sysobjectid := info.sysObjectID
          snmp_last_dt := some now }
    else nd

/-- Rendering of a scalar for the JSON summary (exact `json.dumps`
whitespace is abstracted; no claim inspects this string). -/
def pyValDump : PyVal → Str
  | .null => "null".data
  | .str s => '"' :: s ++ ['"']
  | .int n => (toString n).data
  | .json items =>
    '[' :: joinWith ','
      (items.map fun p => '[' :: ('"' :: p.1 ++ ['"', ',']) ++ pyValDump2 p.2 ++ [']']) ++ [']']
where
  pyValDump2 : PyScalar → Str
    | .null => "null".data
    | .str s => '"' :: s ++ ['"']
    | .int n => (toString n).data

/-- `json.dumps(info)` with the three keys in a fixed order. -/
def healthObjDump (i : HealthInfo) : Str :=
  let fields :=
    (match i.sysName with | some v => [("sysName".data, v)] | none => []) ++
    (match i.sysObjectID with | some v => [("sysObjectID".data, v)] | none => []) ++
    (match i.sysUpTime with | some v => [("sysUpTime".data, v)] | none => [])
  Char.ofNat 123 ::
    joinWith ',' (fields.map fun p => '"' :: p.1 ++ '"' :: ':' :: pyValDump p.2) ++
    [Char.ofNat 125]

/-- `HealthHandler.process_raw_data` (health_handler.py:14-57): build the
info dict, persist it into `mon.node` when non-empty, and return the
`health_info` result row; on an exception return the `health_error` row
(durations are modelled as 0). -/
def process_raw_data (nodes : List NodeRow) (node : NodeRow) (request : Request)
    (journalId : Nat) (raw : List ResultRow) (now : ℚ) : List NodeRow × ResultRow :=
  match build_health_info raw with
  | .error e =>
    (nodes,
     { node_id := node.id, request_id := request.id, journal_id := journalId,
       val := .str [Char.ofNat 123, Char.ofNat 125], key := some "health_error".data,
       duration := 0, err := some e, dt := now })
  | .ok info =>
    let nodes2 := if info.truthy then save_health_info nodes node.id info now else nodes
    (nodes2,
     { node_id := node.id, request_id := request.id, journal_id := journalId,
       val := .str (healthObjDump info), key := some "health_info".data,
       duration := 0, err := none, dt := now })

end HealthHandler

/-- Embedding of a decoded scalar into a stored Python value. -/
def PyScalar.toVal : PyScalar → PyVal
  | .null => .null
  | .str s => .str s
  | .int n => .int n

/-- `int(x)` on a Python value: ints pass through, strings parse with an
optional sign after stripping, everything else raises (`none`). -/
def pyIntOfVal : PyVal → Option Int
  | .int n => some n
  | .str s =>
    match pyStrip s with
    | '-' :: ds => if isDigitStr ds then some (-(digitsToNat ds : Int)) else none
    | '+' :: ds => if isDigitStr ds then some (digitsToNat ds : Int) else none
    | ds => if isDigitStr ds then some (digitsToNat ds : Int) else none
  | _ => none

/-- The maximal runs of consecutive digits of a string
(`re.findall(r'\d+', s)`). -/
def digitRuns : Str → List Str
  | [] => []
  | c :: rest =>
    if c.isDigit then
      match rest with
      | r1 :: _ =>
        if r1.isDigit then
          match digitRuns rest with
          | rr :: rrest => (c :: rr) :: rrest
          | [] => [[c]]
        else [c] :: digitRuns rest
      | [] => [c] :: digitRuns rest
    else digitRuns rest

namespace InterfaceDiscoveryHandler

/-- A parsed interface record: the Python dict built by
`analyze_raw_interface_data`, keys in insertion order. -/
abbrev IfaceDict := List (Str × PyVal)

/-- The per-`if_index` map of interface records, insertion ordered. -/
abbrev IfaceMap := List (Nat × IfaceDict)

/-- Python `d[k] = v` on an insertion-ordered dict. -/
def dictSet (d : IfaceDict) (k : Str) (v : PyVal) : IfaceDict :=
  match d with
  | [] => [(k, v)]
  | (k0, v0) :: rest => if k0 = k then (k0, v) :: rest else (k0, v0) :: dictSet rest k v

/-- The walk-key test of `analyze_raw_interface_data`
(interface_discovery_handler.py:84). -/
def walkKeyMatches (k : Str) : Bool :=
  strStartsWith k "raw_walk_".data || strStartsWith k "walk_".data ||
  strHasSub k "1.3.6.1.2.1.2.2.1.".data || strHasSub k "1.3.6.1.2.1.31.1.1".data

/-- `walk_map[key].extend(items)` with insertion-ordered keys. -/
def walkMapAdd (m : List (Str × List (Str × PyScalar))) (k : Str)
    (items : List (Str × PyScalar)) : List (Str × List (Str × PyScalar)) :=
  match m with
  | [] => [(k, items)]
  | (k0, v0) :: rest =>
    if k0 = k then (k0, v0 ++ items) :: rest else (k0, v0) :: walkMapAdd rest k items

/-- The collection loop (interface_discovery_handler.py:77-106): skip rows
with a truthy `err` or falsy `val`; walk keys are JSON-decoded (a decoded
dict or list yields its pairs, a decoded scalar yields no items, non-JSON
text fails the decode and is skipped); `get_` keys are kept for later.
A row whose key column is NULL would raise `AttributeError` in the
source (caught by the surrounding handler try); the model reads such a
key as `''` — no claim involves NULL keys. -/
def build_maps_from (wm : List (Str × List (Str × PyScalar))) (gm : List ResultRow) :
    List ResultRow → List (Str × List (Str × PyScalar)) × List ResultRow
  | [] => (wm, gm)
  | r :: rest =>
    if truthyErr r.err || !r.val.truthy then build_maps_from wm gm rest
    else
      let k := r.key.getD []
      if walkKeyMatches k then
        match r.val with
        | .json items => build_maps_from (walkMapAdd wm k items) gm rest
        | .int _ => build_maps_from (walkMapAdd wm k []) gm rest
        | _ => build_maps_from wm gm rest
      else if strStartsWith k "get_".data then
        build_maps_from wm (gm ++ [r]) rest
      else
        build_maps_from wm gm rest

/-- The OID-prefix → logical-field table
(interface_discovery_handler.py:122-133), in source order. -/
def mappingTbl : List (List Str × Str) :=
  [(["ifDescr".data, "ifName".data, "1.3.6.1.2.1.2.2.1.2".data,
     "1.3.6.1.2.1.31.1.1.1.1".data], "if_name".data),
   (["ifType".data, "1.3.6.1.2.1.2.2.1.3".data], "if_type".data),
   (["ifMtu".data, "1.3.6.1.2.1.2.2.1.4".data], "if_mtu".data),
   (["ifSpeed".data, "1.3.6.1.2.1.2.2.1.5".data], "if_speed".data),
   (["ifPhysAddress".data, "1.3.6.1.2.1.2.2.1.6".data], "if_phys_address".data),
   (["ifAdminStatus".data, "1.3.6.1.2.1.2.2.1.7".data], "if_admin_status".data),
   (["ifOperStatus".data, "1.3.6.1.2.1.2.2.1.8".data], "if_oper_status".data),
   (["ifLastChange".data, "1.3.6.1.2.1.2.2.1.9".data], "if_last_change".data),
   (["ifAlias".data, "1.3.6.1.2.1.31.1.1.1.18".data], "if_alias".data),
   (["ifIndex".data, "1.3.6.1.2.1.2.2.1.1".data], "if_index".data)]

/-- First mapping entry one of whose substrings occurs in the raw key. -/
def logicalFieldFor (rawKey : Str) : Option Str :=
  (mappingTbl.find? fun p => p.1.any fun sub => strHasSub rawKey sub).map (fun p => p.2)

/-- `extract_interface_index`: the terminal dot component when numeric. -/
def extract_interface_index (oid : Str) : Option Nat :=
  let lastPart := (splitDot oid).getLast?.getD []
  if isDigitStr lastPart then some (digitsToNat lastPart) else none

/-- `extract_interface_index_from_key`: the last digit run of the key. -/
def extract_interface_index_from_key (k : Str) : Option Nat :=
  match (digitRuns k).getLast? with
  | some run => some (digitsToNat run)
  | none => none

/-- The fields coerced with `int(...)`
(interface_discovery_handler.py:165). -/
def numericFields : List Str :=
  ["if_index".data, "if_mtu".data, "if_speed".data, "if_admin_status".data,
   "if_oper_status".data, "if_last_change".data]

/-- Numeric coercion: `int(val)` for numeric fields, keeping the original
value when the conversion raises. -/
def coerceNumeric (field : Str) (v : PyVal) : PyVal :=
  if numericFields.contains field then
    match pyIntOfVal v with
    | some n => .int n
    | none => v
  else v

/-- `set_iface_field` (interface_discovery_handler.py:116-119): create the
record `{'if_index': idx}` on first touch, then assign the field —
unconditionally, a later `None` replaces an earlier value. -/
def set_iface_field (m : IfaceMap) (idx : Nat) (fieldName : Str) (v : PyVal) : IfaceMap :=
  match m with
  | [] => [(idx, dictSet [("if_index".data, PyVal.int idx)] fieldName v)]
  | (i0, d0) :: rest =>
    if i0 = idx then (i0, dictSet d0 fieldName v) :: rest
    else (i0, d0) :: set_iface_field rest idx fieldName v

/-- The per-pair loop over one walk key's items
(interface_discovery_handler.py:148-182): extract the index (`0` and
`None` are both skipped by `if not idx`), coerce, then store — `if_name`
fills both `if_name` and `ifDescr`. -/
def processItems (m : IfaceMap) (logicalField : Str) :
    List (Str × PyScalar) → IfaceMap
  | [] => m
  | (oid, v) :: rest =>
    match extract_interface_index oid with
    | none => processItems m logicalField rest
    | some idx =>
      if idx = 0 then processItems m logicalField rest
      else
        let vn := coerceNumeric logicalField v.toVal
        let m2 :=
          if logicalField = "if_name".data then
            set_iface_field (set_iface_field m idx "if_name".data vn) idx "ifDescr".data vn
          else if logicalField = "if_alias".data then
            set_iface_field m idx "if_alias".data vn
          else if logicalField = "if_index".data then
            set_iface_field m idx "if_index".data vn
          else
            set_iface_field m idx logicalField vn
        processItems m2 logicalField rest

/-- The walk-map loop: unknown keys are skipped. -/
def processWalkMap (m : IfaceMap) :
    List (Str × List (Str × PyScalar)) → IfaceMap
  | [] => m
  | (rawKey, items) :: rest =>
    match logicalFieldFor rawKey with
    | none => processWalkMap m rest
    | some fld => processWalkMap (processItems m fld items) rest

/-- `interfaces[idx] = {'if_index': idx}` when absent. -/
def ensureEntry (m : IfaceMap) (idx : Nat) : IfaceMap :=
  match m with
  | [] => [(idx, [("if_index".data, PyVal.int idx)])]
  | (i0, d0) :: rest =>
    if i0 = idx then (i0, d0) :: rest else (i0, d0) :: ensureEntry rest idx

/-- Field assignment inside an existing entry. -/
def dictSetAt (m : IfaceMap) (idx : Nat) (k : Str) (v : PyVal) : IfaceMap :=
  m.map fun p => if p.1 = idx then (p.1, dictSet p.2 k v) else p

/-- `parse_interface_get_data` (interface_discovery_handler.py:237-257):
index from the key digits (falling back to `request_id` when absent or 0),
then the ifDescr/ifType/ifOperStatus/ifAdminStatus chain. -/
def parse_interface_get_data (r : ResultRow) (m : IfaceMap) : IfaceMap :=
  let key := r.key.getD []
  let ifIdx :=
    match extract_interface_index_from_key key with
    | some n => if n = 0 then r.request_id else n
    | none => r.request_id
  if ifIdx = 0 then m
  else
    let m2 := ensureEntry m ifIdx
    if strHasSub key "ifDescr".data || strHasSub key "1.3.6.1.2.1.2.2.1.2".data then
      dictSetAt (dictSetAt m2 ifIdx "ifDescr".data r.val) ifIdx "if_name".data r.val
    else if strHasSub key "ifType".data || strHasSub key "1.3.6.1.2.1.2.2.1.3".data then
      dictSetAt m2 ifIdx "ifType".data r.val
    else if strHasSub key "ifOperStatus".data || strHasSub key "1.3.6.1.2.1.2.2.1.8".data then
      dictSetAt m2 ifIdx "ifOperStatus".data r.val
    else if strHasSub key "ifAdminStatus".data || strHasSub key "1.3.6.1.2.1.2.2.1.7".data then
      dictSetAt m2 ifIdx "ifAdminStatus".data r.val
    else m2

/-- `analyze_raw_interface_data` (interface_discovery_handler.py:71-188):
collect walk/get records, build the merged per-index records, apply GET
results, and return the record list. -/
def analyze_raw_interface_data (raw : List ResultRow) : List IfaceDict :=
  let maps := build_maps_from [] [] raw
  if maps.1.isEmpty && maps.2.isEmpty then []
  else
    let m := processWalkMap [] maps.1
    let m2 := maps.2.foldl (fun acc r => parse_interface_get_data r acc) m
    m2.map fun p => p.2

end InterfaceDiscoveryHandler

/-- One row of `mon.crontab` (the columns `update_crontab_status`
touches). -/
structure CronRow where
  id : Nat
  task_id : Nat := 0
  status : Str := "ACTIVE".data
  j_id : Option Nat := none
  lastdt : Option ℚ := none
deriving DecidableEq

/-- One row of `mon.journal`. -/
structure JournalRow where
  id : Nat
  task_id : Nat := 0
  startdt : ℚ := 0
  enddt : Option ℚ := none
deriving DecidableEq

/-- The database state the monitor manipulates.  The journal id sequence
is modelled by `nextJournalId` (a DB serial); `create_journal_entry` is
modelled as succeeding — DB connection errors are out of scope. -/
structure MonState where
  crontab : List CronRow := []
  journal : List JournalRow := []
  nodes : List NodeRow := []
  results : List ResultRow := []
  nextJournalId : Nat := 1
deriving DecidableEq

/-- The handler classes registered in `HandlerFactory`. -/
inductive Handler
  | snmp
  | macAddress
  | interface
  | interfaceDiscovery
  | macTable
  | arp
  | health
  | stub
deriving DecidableEq

/-- The ids `HandlerFactory.create_handler` recognises. -/
def validHandlerIds : List Nat := [1, 2, 3, 4, 5, 6, 7, 99]

namespace HandlerFactory

/-- `HandlerFactory.create_handler` (handler_factory.py:19-52): the stub
override, the id → class map, and the `ValueError` naming an unknown id
(modelled as `Except.error` with the exception text). -/
def create_handler (handlerId : Nat) (useStub : Bool) : Except Str Handler :=
  if useStub then .ok .stub
  else
    match handlerId with
    | 1 => .ok .snmp
    | 2 => .ok .macAddress
    | 3 => .ok .interface
    | 4 => .ok .interfaceDiscovery
    | 5 => .ok .macTable
    | 6 => .ok .arp
    | 7 => .ok .health
    | 99 => .ok .stub
    | _ => .error ("Unknown handler_id: ".data ++ natToStr handlerId)

end HandlerFactory

/-- `Except.isOk` written out (true iff no exception was raised). -/
def exceptIsOk : Except Str ResultRow → Bool
  | .ok _ => true
  | .error _ => false

namespace SNMPMonitor

/-- `SNMPMonitor.update_crontab_status` (snmp_monitor.py:108-127):
COMPLETED/ERROR are folded to ACTIVE, then
`SET lastdt = now, status = %s, j_id = %s WHERE id = %s`.
Note the RUNNING transition passes no `j_id`, so it writes NULL. -/
def update_crontab_status (st : MonState) (cronId : Nat) (status : Str)
    (jId : Option Nat) (now : ℚ) : MonState :=
  let status2 :=
    if status = "COMPLETED".data ∨ status = "ERROR".data then "ACTIVE".data else status
  { st with
      crontab := st.crontab.map fun row =>
        if row.id = cronId then
          { row with lastdt := some now, status := status2, j_id := jId }
        else row }

/-- `SNMPMonitor.create_journal_entry`: insert a journal row, return its
serial id. -/
def create_journal_entry (st : MonState) (taskId : Nat) (now : ℚ) : MonState × Nat :=
  let jid := st.nextJournalId
  ({ st with
      journal := { id := jid, task_id := taskId, startdt := now } :: st.journal
      nextJournalId := jid + 1 },
   jid)

/-- `SNMPMonitor.update_journal_entry`: `SET enddt = now WHERE id = %s`. -/
def update_journal_entry (st : MonState) (journalId : Nat) (now : ℚ) : MonState :=
  { st with
      journal := st.journal.map fun j =>
        if j.id = journalId then { j with enddt := some now } else j }

/-- `SNMPMonitor.update_node_snmp_status` (updateNodeLastPolled):
`UPDATE mon.node SET snmp_last_dt = now WHERE id = %s`. -/
def update_node_snmp_status (st : MonState) (nodeId : Nat) (now : ℚ) : MonState :=
  { st with
      nodes := st.nodes.map fun nd =>
        if nd.id = nodeId then { nd with snmp_last_dt := some now } else nd }

/-- `SNMPMonitor.save_results_batch`: bulk `INSERT INTO mon.result`. -/
def save_results_batch (st : MonState) (rows : List ResultRow) : MonState :=
  { st with results := st.results ++ rows }

/-- `SNMPMonitor.create_error_result` (snmp_monitor.py:643-656). -/
def create_error_result (n : NodeRow) (r : Request) (jid : Nat) (msg : Str)
    (now : ℚ) : ResultRow :=
  { node_id := n.id, request_id := r.id, journal_id := jid, val := .null,
    cval := .null, key := some ("error_".data ++ r.name), duration := 0,
    err := some msg, dt := now }

/-- Phase-2 handler behaviour, `handler.process_raw_data(node, request,
journal_id, raw)`: the real handlers' network/database effects enter
through this parameter; `Except.error` models the handler raising. -/
abbrev HandlerRun := Handler → NodeRow → Request → Nat → List ResultRow → Except Str ResultRow

/-- Phase-1 behaviour of `SNMPHandler.execute` (network I/O); it returns
error-bearing rows rather than raising. -/
abbrev ExecRun := NodeRow → Request → Nat → ResultRow

/-- `StubHandler.execute` (stub_handler.py:14-31), duration modelled 0. -/
def stub_execute (node : NodeRow) (request : Request) (jid : Nat) (now : ℚ) : ResultRow :=
  { node_id := node.id, request_id := request.id, journal_id := jid,
    val := .str "stub_value".data, cval := .null, key := some "stub".data,
    duration := 0, err := none, dt := now }

/-- `SNMPMonitor.collect_raw_snmp_data` (snmp_monitor.py:531-563): run the
id-1 handler (the stub when stub mode is on) over every `(node, request)`
pair and mark each row key with `raw_`. -/
def collect_raw_snmp_data (execRun : ExecRun) (useStub : Bool)
    (nodes : List NodeRow) (requests : List Request) (jid : Nat) (now : ℚ) :
    List ResultRow :=
  match HandlerFactory.create_handler 1 useStub with
  | .error _ => []
  | .ok h =>
    (nodes.map fun n =>
      requests.map fun r =>
        let result :=
          match h with
          | .stub => stub_execute n r jid now
          | _ => execRun n r jid
        match result.key with
        | some k =>
          if !k.isEmpty then { result with key := some ("raw_".data ++ k) }
          else { result with key := some ("raw_".data ++ r.name) }
        | none => { result with key := some ("raw_".data ++ r.name) }).flatten

/-- `raw_data_by_node_request.get((node_id, request_id), [])`: grouping
preserves the original order within a key. -/
def raw_for (raw : List ResultRow) (nodeId requestId : Nat) : List ResultRow :=
  raw.filter fun row => decide (row.node_id = nodeId ∧ row.request_id = requestId)

/-- Key rewriting for non-MAC handlers (snmp_monitor.py:620-624):
`processed_<key>` when the key is truthy, else `processed_<request name>`. -/
def processedKey (k : Option Str) (requestName : Str) : Str :=
  match k with
  | some s => if !s.isEmpty then "processed_".data ++ s else "processed_".data ++ requestName
  | none => "processed_".data ++ requestName

/-- Key rewriting for the legacy MAC handler (snmp_monitor.py:600):
`processed_` + `.get('key', 'mac_processing')` (a present-but-None key
formats as the string `None`). -/
def processedKeyMac (k : Option Str) : Str :=
  "processed_".data ++ (match k with | some s => s | none => "None".data)

/-- The inner per-request loop of `process_with_handler`
(snmp_monitor.py:609-632) for non-MAC handlers: for every request with raw
rows, call the handler; a raised exception becomes an `error_` row; the
flag records whether any call returned a result. -/
def pwhRequests (run : HandlerRun) (h : Handler) (n : NodeRow) (jid : Nat)
    (raw : List ResultRow) (now : ℚ) : List Request → List ResultRow × Bool
  | [] => ([], false)
  | r :: rs =>
    let rd := raw_for raw n.id r.id
    let rest := pwhRequests run h n jid raw now rs
    if rd.isEmpty then rest
    else
      match run h n r jid rd with
      | .ok res => ({ res with key := some (processedKey res.key r.name) } :: rest.1, true)
      | .error e =>
        (create_error_result n r jid ("Processing error: ".data ++ e) now :: rest.1, rest.2)

/-- One node of `process_with_handler` (snmp_monitor.py:583-632): the
legacy MAC handler (id 2) receives all of the node's raw rows at once;
every other handler is called per request. -/
def pwhNode (run : HandlerRun) (h : Handler) (handlerId : Nat)
    (requests : List Request) (jid : Nat) (raw : List ResultRow) (now : ℚ)
    (n : NodeRow) : List ResultRow × Bool :=
  if handlerId = 2 then
    let allRaw := (requests.map fun r => raw_for raw n.id r.id).flatten
    if allRaw.isEmpty then ([], false)
    else
      match requests with
      | [] => ([], false)
      | r0 :: _ =>
        match run h n r0 jid allRaw with
        | .ok res => ([{ res with key := some (processedKeyMac res.key) }], true)
        | .error e =>
          ([create_error_result n r0 jid ("MAC Processing error: ".data ++ e) now], false)
  else pwhRequests run h n jid raw now requests

/-- The node loop of `process_with_handler`, collecting the processed rows
and the ids of nodes whose SNMP status gets updated
(`update_node_snmp_status` is called exactly for the flagged nodes). -/
def pwhNodes (run : HandlerRun) (h : Handler) (handlerId : Nat)
    (requests : List Request) (jid : Nat) (raw : List ResultRow) (now : ℚ) :
    List NodeRow → List ResultRow × List Nat
  | [] => ([], [])
  | n :: ns =>
    let this := pwhNode run h handlerId requests jid raw now n
    let rest := pwhNodes run h handlerId requests jid raw now ns
    (this.1 ++ rest.1, (if this.2 then [n.id] else []) ++ rest.2)

/-- `SNMPMonitor.process_with_handler` (snmp_monitor.py:565-641).  A
factory failure (unknown handler id) is caught by the surrounding
`except`, producing no processed rows and no node updates. -/
def process_with_handler (run : HandlerRun) (useStub : Bool) (handlerId : Nat)
    (nodes : List NodeRow) (requests : List Request) (jid : Nat)
    (raw : List ResultRow) (now : ℚ) : List ResultRow × List Nat :=
  match HandlerFactory.create_handler handlerId useStub with
  | .error _ => ([], [])
  | .ok h => pwhNodes run h handlerId requests jid raw now nodes

/-- `SNMPMonitor.process_task` (snmp_monitor.py:470-529): mark the cron
row RUNNING, open the journal, collect raw data, dispatch to the handler
when `handler_id > 1`, apply the node-status updates, restore the cron row
to ACTIVE with the journal id, and finally close the journal.  `t0` is the
wall clock at the start of the run, `t1` at its end; `nodes`/`requests`
are the group query results.  The node-status updates, interleaved with
handler calls in the source, are applied here before the processed rows
are appended — the final state is the same. -/
def process_task (execRun : ExecRun) (run : HandlerRun) (st : MonState)
    (cronId : Option Nat) (taskId : Nat) (nodes : List NodeRow)
    (requests : List Request) (handlerId : Nat) (useStub : Bool)
    (t0 t1 : ℚ) : MonState :=
  let st1 :=
    match cronId with
    | some c => update_crontab_status st c "RUNNING".data none t0
    | none => st
  let jpair := create_journal_entry st1 taskId t0
  let jid := jpair.2
  let st3 :=
    if nodes.isEmpty || requests.isEmpty then
      match cronId with
      | some c => update_crontab_status jpair.1 c "ACTIVE".data (some jid) t1
      | none => jpair.1
    else
      let raw := collect_raw_snmp_data execRun useStub nodes requests jid t0
      let stA := save_results_batch jpair.1 raw
      let stB :=
        if handlerId > 1 then
          let pr := process_with_handler run useStub handlerId nodes requests jid raw t1
          let stU := pr.2.foldl (fun acc nid => update_node_snmp_status acc nid t1) stA
          save_results_batch stU pr.1
        else stA
      match cronId with
      | some c => update_crontab_status stB c "ACTIVE".data (some jid) t1
      | none => stB
  update_journal_entry st3 jid t1

end SNMPMonitor

/-- The last five components are the fifth-from-last followed by the last
four. -/
theorem lastN_five_eq_cons (l : List Str) (h : 5 ≤ l.length) :
    lastN 5 l = l.getD (l.length - 5) [] :: lastN 4 l := by
  have hlt : l.length - 5 < l.length := by omega
  have hgetD : l.getD (l.length - 5) [] = l[l.length - 5] := by
    simp [List.getD, List.getElem?_eq_getElem hlt]
  have hdrop := List.drop_eq_getElem_cons hlt
  have hidx : l.length - 5 + 1 = l.length - 4 := by omega
  simp only [lastN, hgetD]
  rw [hdrop, hidx]

/-- C5: for an OID whose trailing five dot components are all numeric the
function returns the fifth-from-last as ifIndex and the last four joined as
the IP; with fewer than five trailing numeric components (but four numeric
tail components) it returns the IP and no ifIndex. -/
theorem c5_extract_ip_and_ifindex (oid : Str) :
    (5 ≤ (splitDot oid).length →
      ((lastN 5 (splitDot oid)).all isDigitStr = true) →
      ArpHandler.extract_ip_and_ifindex_from_oid oid =
        (some (joinWith '.' (lastN 4 (splitDot oid))),
         some (digitsToNat ((splitDot oid).getD ((splitDot oid).length - 5) [])))) ∧
    (¬ (5 ≤ (splitDot oid).length ∧ (lastN 5 (splitDot oid)).all isDigitStr = true) →
      4 ≤ (splitDot oid).length →
      ((lastN 4 (splitDot oid)).all isDigitStr = true) →
      ArpHandler.extract_ip_and_ifindex_from_oid oid =
        (some (joinWith '.' (lastN 4 (splitDot oid))), none)) := by
  constructor
  · intro h5 hall
    rw [lastN_five_eq_cons _ h5] at hall
    simp only [List.all_cons, Bool.and_eq_true] at hall
    simp only [ArpHandler.extract_ip_and_ifindex_from_oid]
    rw [if_pos h5, if_pos (by rw [hall.1, hall.2]; rfl)]
  · intro hneg h4 hall4
    simp only [ArpHandler.extract_ip_and_ifindex_from_oid, ArpHandler.extract_ip_from_oid]
    by_cases h5 : 5 ≤ (splitDot oid).length
    · have hnot5 : ¬ ((lastN 5 (splitDot oid)).all isDigitStr = true) := fun h => hneg ⟨h5, h⟩
      rw [lastN_five_eq_cons _ h5] at hnot5
      simp only [List.all_cons, Bool.and_eq_true] at hnot5
      have hifp : isDigitStr ((splitDot oid).getD ((splitDot oid).length - 5) []) = false := by
        rcases Bool.eq_false_or_eq_true
            (isDigitStr ((splitDot oid).getD ((splitDot oid).length - 5) [])) with h | h
        · exact absurd ⟨h, hall4⟩ hnot5
        · exact h
      rw [if_pos h5,
        if_neg (by rw [hifp, Bool.and_false]; exact Bool.false_ne_true),
        if_pos (by rw [decide_eq_true h4, hall4]; rfl)]
    · rw [if_neg h5, if_pos (by rw [decide_eq_true h4, hall4]; rfl)]


theorem hexstring_lower_data :
    "hex-string:".data = ['h', 'e', 'x', '-', 's', 't', 'r', 'i', 'n', 'g', ':'] := rfl

theorem zx_data : "0x".data = ['0', 'x'] := rfl

theorem isHexChar_space : isHexChar ' ' = false := by decide

theorem isHexChar_colon : isHexChar ':' = false := by decide

theorem hexFacts (c : Char) (h : isHexChar c = true) :
    isWs c = false ∧ c ≠ ':' ∧ c ≠ ' ' ∧ c ≠ '\n' ∧ c ≠ '\r' ∧
    Char.toLower c ≠ 'h' ∧ Char.toLower c ≠ 'x' ∧
    isHexChar (Char.toLower c) = true ∧
    Char.toLower (Char.toLower c) = Char.toLower c := by
  have hall : ∀ x ∈ hexChars,
      isWs x = false ∧ x ≠ ':' ∧ x ≠ ' ' ∧ x ≠ '\n' ∧ x ≠ '\r' ∧
      Char.toLower x ≠ 'h' ∧ Char.toLower x ≠ 'x' ∧
      isHexChar (Char.toLower x) = true ∧
      Char.toLower (Char.toLower x) = Char.toLower x := by decide
  exact hall c (by simpa [isHexChar] using h)

theorem pyStrip_id (s : Str)
    (hhead : ∀ x, s.head? = some x → isWs x = false)
    (hlast : ∀ x, s.getLast? = some x → isWs x = false) :
    pyStrip s = s := by
  have hdw : s.dropWhile isWs = s := by
    cases s with
    | nil => rfl
    | cons a t =>
      rw [List.dropWhile_cons]
      simp [hhead a rfl]
  have hdw2 : s.reverse.dropWhile isWs = s.reverse := by
    cases hr : s.reverse with
    | nil => rfl
    | cons a t =>
      rw [List.dropWhile_cons]
      have hga : s.getLast? = some a := by
        rw [← List.head?_reverse, hr]
        rfl
      simp [hlast a hga]
  rw [pyStrip, hdw, hdw2, List.reverse_reverse]

theorem strHasChar_false (s : Str) (ch : Char) (h : ∀ c ∈ s, c ≠ ch) :
    strHasChar s ch = false := by
  simp only [strHasChar, List.any_eq_false, decide_eq_true_eq]
  exact h

theorem filter_hex_all (s : Str) :
    (s.filter isHexChar).all isHexChar = true := by
  rw [List.all_eq_true]
  intro c hc
  exact (List.mem_filter.mp hc).2

/-- Pipeline of `normalize_mac_str` on an input that triggers none of the
prefix-stripping branches. -/
theorem normalize_generic (a : Char) (t : Str)
    (hhead : isWs a = false)
    (hlast : ∀ x, (a :: t).getLast? = some x → isWs x = false)
    (hnohex : strStartsWith (pyLower (a :: t)) "hex-string:".data = false)
    (hbr2 : strHasChar (a :: t) ':' = false ∨ strHasChar (a :: t) ' ' = false)
    (h0x : strStartsWith (pyLower (a :: t)) "0x".data = false)
    (hfl : ((a :: t).filter isHexChar).length = 12) :
    MacTableHandler.normalize_mac_str (a :: t) =
      some (colonJoinPairs (pyLower ((a :: t).filter isHexChar))) := by
  have hid : pyStrip (a :: t) = a :: t :=
    pyStrip_id (a :: t) (by intro x hx; simp at hx; rw [← hx]; exact hhead) hlast
  simp only [MacTableHandler.normalize_mac_str, hid, hnohex, Bool.false_eq_true, if_false]
  rcases hbr2 with hc | hc <;>
    simp [hc, Bool.false_and, Bool.and_false, h0x, hfl, filter_hex_all]

/-- Pipeline of `normalize_mac_str` on an input with a `0x` prefix. -/
theorem normalize_generic_0x (a : Char) (t : Str)
    (hhead : isWs a = false)
    (hlast : ∀ x, (a :: t).getLast? = some x → isWs x = false)
    (hnohex : strStartsWith (pyLower (a :: t)) "hex-string:".data = false)
    (hbr2 : strHasChar (a :: t) ':' = false ∨ strHasChar (a :: t) ' ' = false)
    (h0x : strStartsWith (pyLower (a :: t)) "0x".data = true)
    (hfl : ((t.tail).filter isHexChar).length = 12) :
    MacTableHandler.normalize_mac_str (a :: t) =
      some (colonJoinPairs (pyLower ((t.tail).filter isHexChar))) := by
  have hid : pyStrip (a :: t) = a :: t :=
    pyStrip_id (a :: t) (by intro x hx; simp at hx; rw [← hx]; exact hhead) hlast
  simp only [MacTableHandler.normalize_mac_str, hid, hnohex, Bool.false_eq_true, if_false]
  rcases hbr2 with hc | hc <;>
    simp [hc, Bool.false_and, Bool.and_false, h0x, hfl, filter_hex_all]

/-- Pipeline of `normalize_mac_str` on a `Hex-STRING: `-prefixed input. -/
theorem normalize_generic_hexstring (b : Char) (t : Str)
    (hhead : isWs b = false)
    (hlast : ∀ x, (b :: t).getLast? = some x → isWs x = false)
    (hbr2 : strHasChar (b :: t) ':' = false ∨ strHasChar (b :: t) ' ' = false)
    (h0x : strStartsWith (pyLower (b :: t)) "0x".data = false)
    (hfl : ((b :: t).filter isHexChar).length = 12) :
    MacTableHandler.normalize_mac_str ("Hex-STRING: ".data ++ (b :: t)) =
      some (colonJoinPairs (pyLower ((b :: t).filter isHexChar))) := by
  have hs : "Hex-STRING: ".data ++ (b :: t) =
      'H' :: 'e' :: 'x' :: '-' :: 'S' :: 'T' :: 'R' :: 'I' :: 'N' :: 'G' :: ':' :: ' ' :: b :: t := rfl
  have hid2 : pyStrip (' ' :: b :: t) = b :: t := by
    have : (' ' :: b :: t).dropWhile isWs = b :: t := by
      rw [List.dropWhile_cons]
      simp only [show isWs ' ' = true from rfl, if_true, List.dropWhile_cons]
      simp [hhead]
    rw [pyStrip, this]
    have h2 : (b :: t).reverse.dropWhile isWs = (b :: t).reverse := by
      cases hr : (b :: t).reverse with
      | nil => rfl
      | cons x xs =>
        rw [List.dropWhile_cons]
        have hga : (b :: t).getLast? = some x := by
          rw [← List.head?_reverse, hr]
          rfl
        simp [hlast x hga]
    rw [h2, List.reverse_reverse]
  have hidfull : pyStrip ("Hex-STRING: ".data ++ (b :: t)) = "Hex-STRING: ".data ++ (b :: t) := by
    apply pyStrip_id
    · intro x hx
      rw [hs] at hx
      simp at hx
      rw [← hx]
      rfl
    · intro x hx
      rw [List.getLast?_append_cons] at hx
      exact hlast x hx
  have hstart : strStartsWith (pyLower ("Hex-STRING: ".data ++ (b :: t))) "hex-string:".data = true := by
    rw [hs]
    simp [pyLower, strStartsWith, hexstring_lower_data]
  have hsplit : splitOnceChar ':' ("Hex-STRING: ".data ++ (b :: t)) =
      some ("Hex-STRING".data, ' ' :: b :: t) := by
    rw [hs]
    simp [splitOnceChar]
  simp only [MacTableHandler.normalize_mac_str, hidfull, hstart, if_true, hsplit, hid2]
  rcases hbr2 with hc | hc <;>
    simp [hc, Bool.false_and, Bool.and_false, h0x, hfl, filter_hex_all]

/-- C4 (amended): `normalize_mac_str` maps every valid 12-hex-digit MAC —
plain, `0x`-prefixed, `Hex-STRING:`-prefixed with space separators, or
colon-separated — to the lowercase `aa:bb:cc:dd:ee:ff` form, and that
output maps to itself (round-trip).  The arp-side `format_mac_address`
does not lowercase (see the counterexample). -/
theorem c4_normalize_mac_str_canonical (a b c d e f g h i j k l : Char)
    (Ha : isHexChar a = true) (Hb : isHexChar b = true) (Hc : isHexChar c = true)
    (Hd : isHexChar d = true) (He : isHexChar e = true) (Hf : isHexChar f = true)
    (Hg : isHexChar g = true) (Hh : isHexChar h = true) (Hi : isHexChar i = true)
    (Hj : isHexChar j = true) (Hk : isHexChar k = true) (Hl : isHexChar l = true) :
    MacTableHandler.normalize_mac_str [a, b, c, d, e, f, g, h, i, j, k, l] =
      some (macColonForm (pyLower [a, b, c, d, e, f, g, h, i, j, k, l])) ∧
    MacTableHandler.normalize_mac_str ('0' :: 'x' :: [a, b, c, d, e, f, g, h, i, j, k, l]) =
      some (macColonForm (pyLower [a, b, c, d, e, f, g, h, i, j, k, l])) ∧
    MacTableHandler.normalize_mac_str
        ("Hex-STRING: ".data ++ macSpacedForm [a, b, c, d, e, f, g, h, i, j, k, l]) =
      some (macColonForm (pyLower [a, b, c, d, e, f, g, h, i, j, k, l])) ∧
    MacTableHandler.normalize_mac_str (macColonForm [a, b, c, d, e, f, g, h, i, j, k, l]) =
      some (macColonForm (pyLower [a, b, c, d, e, f, g, h, i, j, k, l])) ∧
    MacTableHandler.normalize_mac_str
        (macColonForm (pyLower [a, b, c, d, e, f, g, h, i, j, k, l])) =
      some (macColonForm (pyLower [a, b, c, d, e, f, g, h, i, j, k, l])) := by
  obtain ⟨wa, ca, sa, na, ra, lha, lxa, hha, ila⟩ := hexFacts a Ha
  obtain ⟨wb, cb, sb, nb, rb, lhb, lxb, hhb, ilb⟩ := hexFacts b Hb
  obtain ⟨wc, cc, sc, nc, rc, lhc, lxc, hhc, ilc⟩ := hexFacts c Hc
  obtain ⟨wd, cd, sd, nd, rd, lhd, lxd, hhd, ild⟩ := hexFacts d Hd
  obtain ⟨we, ce, se, ne, re, lhe, lxe, hhe, ile⟩ := hexFacts e He
  obtain ⟨wf, cf, sf, nf, rf, lhf, lxf, hhf, ilf⟩ := hexFacts f Hf
  obtain ⟨wg, cg, sg, ng, rg, lhg, lxg, hhg, ilg⟩ := hexFacts g Hg
  obtain ⟨wh, ch, sh, nh, rh, lhh, lxh, hhh, ilh⟩ := hexFacts h Hh
  obtain ⟨wi, ci, si, ni, ri, lhi, lxi, hhi, ili⟩ := hexFacts i Hi
  obtain ⟨wj, cj, sj, nj, rj, lhj, lxj, hhj, ilj⟩ := hexFacts j Hj
  obtain ⟨wk, ck, sk, nk, rk, lhk, lxk, hhk, ilk⟩ := hexFacts k Hk
  obtain ⟨wl, cl, sl, nl, rl, lhl, lxl, hhl, ill⟩ := hexFacts l Hl
  obtain ⟨w2a, c2a, s2a, n2a, r2a, lh2a, lx2a, hh2a, il2a⟩ := hexFacts _ hha
  obtain ⟨w2b, c2b, s2b, n2b, r2b, lh2b, lx2b, hh2b, il2b⟩ := hexFacts _ hhb
  obtain ⟨w2c, c2c, s2c, n2c, r2c, lh2c, lx2c, hh2c, il2c⟩ := hexFacts _ hhc
  obtain ⟨w2d, c2d, s2d, n2d, r2d, lh2d, lx2d, hh2d, il2d⟩ := hexFacts _ hhd
  obtain ⟨w2e, c2e, s2e, n2e, r2e, lh2e, lx2e, hh2e, il2e⟩ := hexFacts _ hhe
  obtain ⟨w2f, c2f, s2f, n2f, r2f, lh2f, lx2f, hh2f, il2f⟩ := hexFacts _ hhf
  obtain ⟨w2g, c2g, s2g, n2g, r2g, lh2g, lx2g, hh2g, il2g⟩ := hexFacts _ hhg
  obtain ⟨w2h, c2h, s2h, n2h, r2h, lh2h, lx2h, hh2h, il2h⟩ := hexFacts _ hhh
  obtain ⟨w2i, c2i, s2i, n2i, r2i, lh2i, lx2i, hh2i, il2i⟩ := hexFacts _ hhi
  obtain ⟨w2j, c2j, s2j, n2j, r2j, lh2j, lx2j, hh2j, il2j⟩ := hexFacts _ hhj
  obtain ⟨w2k, c2k, s2k, n2k, r2k, lh2k, lx2k, hh2k, il2k⟩ := hexFacts _ hhk
  obtain ⟨w2l, c2l, s2l, n2l, r2l, lh2l, lx2l, hh2l, il2l⟩ := hexFacts _ hhl
  refine ⟨?_, ?_, ?_, ?_, ?_⟩
  · rw [normalize_generic a [b, c, d, e, f, g, h, i, j, k, l] wa
      (by intro x hx
          simp only [List.getLast?_cons_cons, List.getLast?_singleton, Option.some_inj] at hx
          rw [← hx]; exact wl)
      (by rw [hexstring_lower_data]; simp [pyLower, strStartsWith, lha])
      (Or.inl (by simp [strHasChar, ca, cb, cc, cd, ce, cf, cg, ch, ci, cj, ck, cl]))
      (by rw [zx_data]; simp [pyLower, strStartsWith, lxb])
      (by simp [List.filter, Ha, Hb, Hc, Hd, He, Hf, Hg, Hh, Hi, Hj, Hk, Hl])]
    simp [List.filter, Ha, Hb, Hc, Hd, He, Hf, Hg, Hh, Hi, Hj, Hk, Hl,
      pyLower, colonJoinPairs, chunk2, joinWith, macColonForm]
  · rw [normalize_generic_0x '0' ('x' :: [a, b, c, d, e, f, g, h, i, j, k, l]) (by decide)
      (by intro x hx
          simp only [List.getLast?_cons_cons, List.getLast?_singleton, Option.some_inj] at hx
          rw [← hx]; exact wl)
      (by rw [hexstring_lower_data]; simp [pyLower, strStartsWith])
      (Or.inl (by simp [strHasChar, ca, cb, cc, cd, ce, cf, cg, ch, ci, cj, ck, cl]))
      (by rw [zx_data]; simp [pyLower, strStartsWith])
      (by simp [List.filter, Ha, Hb, Hc, Hd, He, Hf, Hg, Hh, Hi, Hj, Hk, Hl])]
    simp [List.filter, Ha, Hb, Hc, Hd, He, Hf, Hg, Hh, Hi, Hj, Hk, Hl,
      pyLower, colonJoinPairs, chunk2, joinWith, macColonForm]
  · rw [show macSpacedForm [a, b, c, d, e, f, g, h, i, j, k, l] =
        a :: [b, ' ', c, d, ' ', e, f, ' ', g, h, ' ', i, j, ' ', k, l] from rfl]
    rw [normalize_generic_hexstring a [b, ' ', c, d, ' ', e, f, ' ', g, h, ' ', i, j, ' ', k, l] wa
      (by intro x hx
          simp only [List.getLast?_cons_cons, List.getLast?_singleton, Option.some_inj] at hx
          rw [← hx]; exact wl)
      (Or.inl (by simp [strHasChar, ca, cb, cc, cd, ce, cf, cg, ch, ci, cj, ck, cl]))
      (by rw [zx_data]; simp [pyLower, strStartsWith, lxb])
      (by simp [List.filter, isHexChar_space, Ha, Hb, Hc, Hd, He, Hf, Hg, Hh, Hi, Hj, Hk, Hl])]
    simp [List.filter, isHexChar_space, Ha, Hb, Hc, Hd, He, Hf, Hg, Hh, Hi, Hj, Hk, Hl,
      pyLower, colonJoinPairs, chunk2, joinWith, macColonForm]
  · rw [show macColonForm [a, b, c, d, e, f, g, h, i, j, k, l] =
        a :: [b, ':', c, d, ':', e, f, ':', g, h, ':', i, j, ':', k, l] from rfl]
    rw [normalize_generic a [b, ':', c, d, ':', e, f, ':', g, h, ':', i, j, ':', k, l] wa
      (by intro x hx
          simp only [List.getLast?_cons_cons, List.getLast?_singleton, Option.some_inj] at hx
          rw [← hx]; exact wl)
      (by rw [hexstring_lower_data]; simp [pyLower, strStartsWith, lha])
      (Or.inr (by simp [strHasChar, sa, sb, sc, sd, se, sf, sg, sh, si, sj, sk, sl]))
      (by rw [zx_data]; simp [pyLower, strStartsWith, lxb])
      (by simp [List.filter, isHexChar_colon, Ha, Hb, Hc, Hd, He, Hf, Hg, Hh, Hi, Hj, Hk, Hl])]
    simp [List.filter, isHexChar_colon, Ha, Hb, Hc, Hd, He, Hf, Hg, Hh, Hi, Hj, Hk, Hl,
      pyLower, colonJoinPairs, chunk2, joinWith, macColonForm]
  · rw [show macColonForm (pyLower [a, b, c, d, e, f, g, h, i, j, k, l]) =
        Char.toLower a :: [Char.toLower b, ':', Char.toLower c, Char.toLower d, ':',
          Char.toLower e, Char.toLower f, ':', Char.toLower g, Char.toLower h, ':',
          Char.toLower i, Char.toLower j, ':', Char.toLower k, Char.toLower l] from rfl]
    rw [normalize_generic (Char.toLower a) [Char.toLower b, ':', Char.toLower c, Char.toLower d, ':',
          Char.toLower e, Char.toLower f, ':', Char.toLower g, Char.toLower h, ':',
          Char.toLower i, Char.toLower j, ':', Char.toLower k, Char.toLower l] w2a
      (by intro x hx
          simp only [List.getLast?_cons_cons, List.getLast?_singleton, Option.some_inj] at hx
          rw [← hx]; exact w2l)
      (by rw [hexstring_lower_data]; simp [pyLower, strStartsWith, lh2a])
      (Or.inr (by simp [strHasChar, s2a, s2b, s2c, s2d, s2e, s2f, s2g, s2h, s2i, s2j, s2k, s2l]))
      (by rw [zx_data]; simp [pyLower, strStartsWith, lx2b])
      (by simp [List.filter, isHexChar_colon, hha, hhb, hhc, hhd, hhe, hhf, hhg, hhh, hhi, hhj, hhk, hhl])]
    simp [List.filter, isHexChar_colon, hha, hhb, hhc, hhd, hhe, hhf, hhg, hhh, hhi, hhj, hhk, hhl,
      pyLower, colonJoinPairs, chunk2, joinWith, macColonForm,
      il2a, il2b, il2c, il2d, il2e, il2f, il2g, il2h, il2i, il2j, il2k, il2l,
      ila, ilb, ilc, ild, ile, ilf, ilg, ilh, ili, ilj, ilk, ill]

/-- C4 witness: the amended theorem evaluated on the concrete MAC
`00 08 7C 86 03 98` (note the uppercase `C` is lowercased). -/
theorem c4_normalize_mac_str_canonical_witness :
    MacTableHandler.normalize_mac_str
        ("Hex-STRING: ".data ++ macSpacedForm ['0', '0', '0', '8', '7', 'C', '8', '6', '0', '3', '9', '8']) =
      some (macColonForm (pyLower ['0', '0', '0', '8', '7', 'C', '8', '6', '0', '3', '9', '8'])) ∧
    MacTableHandler.normalize_mac_str
        (macColonForm (pyLower ['0', '0', '0', '8', '7', 'C', '8', '6', '0', '3', '9', '8'])) =
      some (macColonForm (pyLower ['0', '0', '0', '8', '7', 'C', '8', '6', '0', '3', '9', '8'])) :=
  ⟨(c4_normalize_mac_str_canonical '0' '0' '0' '8' '7' 'C' '8' '6' '0' '3' '9' '8'
      (by decide) (by decide) (by decide) (by decide) (by decide) (by decide)
      (by decide) (by decide) (by decide) (by decide) (by decide) (by decide)).2.2.1,
   (c4_normalize_mac_str_canonical '0' '0' '0' '8' '7' 'C' '8' '6' '0' '3' '9' '8'
      (by decide) (by decide) (by decide) (by decide) (by decide) (by decide)
      (by decide) (by decide) (by decide) (by decide) (by decide) (by decide)).2.2.2.2⟩

/-- C4 counterexample: the arp-handler formatter cited by the claim does
not lowercase: on `Hex-STRING: 00 08 7C 86 03 98` it returns
`00:08:7C:86:03:98`, not the claimed lowercase `aa:bb:cc:dd:ee:ff` form. -/
theorem c4_format_mac_address_not_lowercase :
    ArpHandler.format_mac_address "Hex-STRING: 00 08 7C 86 03 98".data =
      "00:08:7C:86:03:98".data ∧
    ArpHandler.format_mac_address "Hex-STRING: 00 08 7C 86 03 98".data ≠
      "00:08:7c:86:03:98".data := by
  constructor
  · decide
  · decide

/-- C5 witness: the ARP OID `…4.22.1.2.3.10.0.0.1` yields ifIndex 3 and
IP `10.0.0.1`. -/
theorem c5_extract_witness :
    ArpHandler.extract_ip_and_ifindex_from_oid "1.3.6.1.2.1.4.22.1.2.3.10.0.0.1".data =
      (some "10.0.0.1".data, some 3) :=
  (c5_extract_ip_and_ifindex "1.3.6.1.2.1.4.22.1.2.3.10.0.0.1".data).1 (by decide) (by decide)

theorem due_tail_iff (diff interval : ℚ) (h1 : 1 ≤ interval) :
    (if diff < interval then false
     else if 1 ≤ ⌊diff / interval⌋ ∧ pymod diff interval ≤ 1 then true else false) = true
    ↔ interval ≤ diff ∧ pymod diff interval ≤ 1 := by
  by_cases hd : diff < interval
  · simp only [hd, if_true]
    constructor
    · intro h; exact absurd h (by simp)
    · intro h; exact absurd hd (not_lt.mpr h.1)
  · have hle : interval ≤ diff := le_of_not_lt hd
    have hpos : (0 : ℚ) < interval := lt_of_lt_of_le one_pos h1
    have hfl : 1 ≤ ⌊diff / interval⌋ := by
      rw [Int.le_floor]
      push_cast
      rw [le_div_iff₀ hpos]
      linarith
    by_cases hr : pymod diff interval ≤ 1 <;> simp [hd, hfl, hle, hr]

/-- C1: `should_execute_task` returns true exactly under the claimed
condition: interval `days*1440 + hours*60 + minutes` (1 when the total is
0), `startDt` not in the future, reference `lastDt` when set else a past
`startDt` else today at 00:00, and
`elapsedMin ≥ intervalMin ∧ elapsedMin mod intervalMin ≤ 1`. -/
theorem c1_should_execute_task_iff (ct : CronSched) (now dayStart : ℚ) :
    should_execute_task ct now dayStart = true ↔ cron_due_spec ct now dayStart := by
  obtain ⟨ds, hs, ms, sd, ld⟩ := ct
  have hq : (ds.getD 0) * 24 * 60 + (hs.getD 0) * 60 + ms.getD 0 =
      (ds.getD 0) * 1440 + (hs.getD 0) * 60 + ms.getD 0 := by ring
  have h1 : (1 : ℚ) ≤
      (if (ds.getD 0) * 24 * 60 + (hs.getD 0) * 60 + ms.getD 0 = 0 then (1 : ℚ)
       else (((ds.getD 0) * 24 * 60 + (hs.getD 0) * 60 + ms.getD 0 : Nat) : ℚ)) := by
    by_cases hz : (ds.getD 0) * 24 * 60 + (hs.getD 0) * 60 + ms.getD 0 = 0
    · simp [hz]
    · simp only [hz, if_false]
      exact_mod_cast Nat.one_le_iff_ne_zero.mpr hz
  cases sd with
  | some s =>
    by_cases hfut : s > now
    · simp only [should_execute_task, cron_due_spec, hfut, if_true]
      constructor
      · intro h; exact absurd h (by simp)
      · rintro ⟨hall, -⟩
        exact absurd (hall s rfl) (not_le.mpr hfut)
    · cases ld with
      | some l =>
        simp only [should_execute_task, cron_due_spec, hfut, if_false, hq]
        rw [due_tail_iff _ _ (by rw [← hq]; exact h1)]
        constructor
        · intro h; exact ⟨fun x hx => (Option.some_inj.mp hx) ▸ le_of_not_lt hfut, h⟩
        · intro h; exact h.2
      | none =>
        simp only [should_execute_task, cron_due_spec, hfut, if_false, hq]
        rw [due_tail_iff _ _ (by rw [← hq]; exact h1)]
        constructor
        · intro h; exact ⟨fun x hx => (Option.some_inj.mp hx) ▸ le_of_not_lt hfut, h⟩
        · intro h; exact h.2
  | none =>
    cases ld with
    | some l =>
      simp only [should_execute_task, cron_due_spec, hq]
      rw [due_tail_iff _ _ (by rw [← hq]; exact h1)]
      constructor
      · intro h; exact ⟨(fun x hx => nomatch hx), h⟩
      · intro h; exact h.2
    | none =>
      simp only [should_execute_task, cron_due_spec, hq]
      rw [due_tail_iff _ _ (by rw [← hq]; exact h1)]
      constructor
      · intro h; exact ⟨(fun x hx => nomatch hx), h⟩
      · intro h; exact h.2

/-- C2: `update_result_record` touches only rows matching
`(node_id, request_id, journal_id)` whose `val` and `err` are both NULL;
any row with a non-null `val` or a non-null `err` is returned unchanged,
and a row that changed must have matched the full guard. -/
theorem c2_update_result_record_guard (tbl : List ResultRow)
    (nodeId requestId journalId : Nat) (h : ResultRow) (i : Nat) (r : ResultRow) :
    (tbl[i]? = some r → (r.val ≠ PyVal.null ∨ r.err ≠ none) →
      (update_result_record tbl nodeId requestId journalId h)[i]? = some r) ∧
    (∀ r2, tbl[i]? = some r →
      (update_result_record tbl nodeId requestId journalId h)[i]? = some r2 → r2 ≠ r →
      r.node_id = nodeId ∧ r.request_id = requestId ∧ r.journal_id = journalId ∧
        r.val = PyVal.null ∧ r.err = none) := by
  constructor
  · intro hget hnn
    rw [update_result_record, List.getElem?_map, hget, Option.map_some']
    have hcond : ¬ (r.node_id = nodeId ∧ r.request_id = requestId ∧ r.journal_id = journalId ∧
        r.val = PyVal.null ∧ r.err = none) := by
      rintro ⟨-, -, -, hv, he⟩
      rcases hnn with hn | hn
      · exact hn hv
      · exact hn he
    rw [if_neg hcond]
  · intro r2 hget hget2 hne
    rw [update_result_record, List.getElem?_map, hget, Option.map_some'] at hget2
    by_cases hcond : r.node_id = nodeId ∧ r.request_id = requestId ∧ r.journal_id = journalId ∧
        r.val = PyVal.null ∧ r.err = none
    · exact hcond
    · rw [if_neg hcond] at hget2
      exact absurd (Option.some_inj.mp hget2).symm hne

/-- C2 witness: a filled row (`val` non-null) sitting at the matching key
is left unchanged by the update. -/
theorem c2_update_result_record_guard_witness :
    (update_result_record
        [{ node_id := 1, request_id := 2, journal_id := 3, val := PyVal.str "5".data,
           key := some "raw_sysUpTime".data }]
        1 2 3 { val := PyVal.str "9".data, err := none })[0]? =
      some { node_id := 1, request_id := 2, journal_id := 3, val := PyVal.str "5".data,
             key := some "raw_sysUpTime".data } :=
  (c2_update_result_record_guard
      [{ node_id := 1, request_id := 2, journal_id := 3, val := PyVal.str "5".data,
         key := some "raw_sysUpTime".data }]
      1 2 3 { val := PyVal.str "9".data, err := none } 0
      { node_id := 1, request_id := 2, journal_id := 3, val := PyVal.str "5".data,
        key := some "raw_sysUpTime".data }).1 rfl (by decide)

/-- C9: when the health scan yields a non-empty info dict that lacks
`sysName` and `sysObjectID` (for example only `sysUpTime` was observed),
`process_raw_data` still runs the node update and overwrites
`node.sysname` and `node.sysobjectid` with NULL while setting
`snmp_last_dt`. -/
theorem c9_health_null_overwrite (nodes : List NodeRow) (node : NodeRow)
    (request : Request) (journalId : Nat) (raw : List ResultRow) (now : ℚ)
    (info : HealthInfo)
    (hok : HealthHandler.build_health_info raw = .ok info)
    (hn : info.sysName = none) (ho : info.sysObjectID = none)
    (hu : info.sysUpTime ≠ none) :
    ∀ nd ∈ (HealthHandler.process_raw_data nodes node request journalId raw now).1,
      nd.id = node.id →
      nd.sysname = none ∧ nd.sysobjectid = none ∧ nd.snmp_last_dt = some now := by
  intro nd hmem hid
  have htruthy : info.truthy = true := by
    simp [HealthInfo.truthy, hn, ho, Option.isSome_iff_exists]
    cases hv : info.sysUpTime with
    | none => exact absurd hv hu
    | some v => exact ⟨v, rfl⟩
  rw [HealthHandler.process_raw_data, hok] at hmem
  simp only [htruthy, if_true] at hmem
  rw [HealthHandler.save_health_info] at hmem
  simp only [List.mem_map] at hmem
  obtain ⟨nd0, hnd0, heq⟩ := hmem
  by_cases hcase : nd0.id = node.id
  · rw [if_pos hcase] at heq
    rw [← heq]
    exact ⟨hn, ho, rfl⟩
  · rw [if_neg hcase] at heq
    rw [← heq] at hid
    exact absurd hid hcase

/-- C9 witness: a node with previously stored sysname/sysobjectid loses
both (overwritten by NULL) after a health pass that only saw sysUpTime. -/
theorem c9_health_null_overwrite_witness :
    ({ id := 7, snmp_last_dt := some 5 } : NodeRow) ∈
      (HealthHandler.process_raw_data
        [{ id := 7, sysname := some (.str "old-switch".data),
           sysobjectid := some (.str "1.3.6.1.4.1.9".data) }]
        { id := 7 } { id := 4, name := "sysUpTime".data } 11
        [{ node_id := 7, request_id := 4, journal_id := 11,
           val := .str "12345".data, key := some "raw_get_sysUpTime".data }] 5).1 ∧
    (({ id := 7, snmp_last_dt := some 5 } : NodeRow).sysname = none ∧
     ({ id := 7, snmp_last_dt := some 5 } : NodeRow).sysobjectid = none ∧
     ({ id := 7, snmp_last_dt := some 5 } : NodeRow).snmp_last_dt = some 5) := by
  constructor
  · decide
  exact
   c9_health_null_overwrite
     [{ id := 7, sysname := some (.str "old-switch".data),
        sysobjectid := some (.str "1.3.6.1.4.1.9".data) }]
     { id := 7 } { id := 4, name := "sysUpTime".data } 11
     [{ node_id := 7, request_id := 4, journal_id := 11,
        val := .str "12345".data, key := some "raw_get_sysUpTime".data }]
     5 { sysUpTime := some (.str "12345".data) } rfl rfl rfl (by decide)
     { id := 7, snmp_last_dt := some 5 } (by decide) rfl
/-- C6 (code_bug evidence): merging across raw records works — record B
fills `if_oper_status` into the record built from record A — but
`set_iface_field` assigns unconditionally, so a later record whose decoded
pair carries JSON `null` for the same field overwrites the earlier
non-null `"Gi0/1"` with null, contradicting the spec's "a non-null value
must not be overwritten by null". -/
theorem c6_interface_merge_null_overwrite :
    InterfaceDiscoveryHandler.analyze_raw_interface_data
        [{ key := some "raw_walk_ifDescr".data
           val := .json [("1.3.6.1.2.1.2.2.1.2.1".data, .str "Gi0/1".data)] }] =
      [[("if_index".data, PyVal.int 1), ("if_name".data, PyVal.str "Gi0/1".data),
        ("ifDescr".data, PyVal.str "Gi0/1".data)]] ∧
    InterfaceDiscoveryHandler.analyze_raw_interface_data
        [{ key := some "raw_walk_ifDescr".data
           val := .json [("1.3.6.1.2.1.2.2.1.2.1".data, .str "Gi0/1".data)] },
         { key := some "raw_walk_ifOperStatus".data
           val := .json [("1.3.6.1.2.1.2.2.1.8.1".data, .str "1".data)] }] =
      [[("if_index".data, PyVal.int 1), ("if_name".data, PyVal.str "Gi0/1".data),
        ("ifDescr".data, PyVal.str "Gi0/1".data), ("if_oper_status".data, PyVal.int 1)]] ∧
    InterfaceDiscoveryHandler.analyze_raw_interface_data
        [{ key := some "raw_walk_ifDescr".data
           val := .json [("1.3.6.1.2.1.2.2.1.2.1".data, .str "Gi0/1".data)] },
         { key := some "raw_walk_ifDescr".data
           val := .json [("1.3.6.1.2.1.2.2.1.2.1".data, .null)] }] =
      [[("if_index".data, PyVal.int 1), ("if_name".data, PyVal.null),
        ("ifDescr".data, PyVal.null)]] := by
  refine ⟨?_, ?_, ?_⟩ <;> decide

namespace SNMPMonitor

theorem crontab_update_journal (st : MonState) (jid : Nat) (t : ℚ) :
    (update_journal_entry st jid t).crontab = st.crontab := rfl

theorem crontab_save (st : MonState) (rows : List ResultRow) :
    (save_results_batch st rows).crontab = st.crontab := rfl

theorem crontab_node_upd (st : MonState) (nid : Nat) (t : ℚ) :
    (update_node_snmp_status st nid t).crontab = st.crontab := rfl

theorem crontab_create_journal (st : MonState) (tid : Nat) (t : ℚ) :
    (create_journal_entry st tid t).1.crontab = st.crontab := rfl

theorem crontab_fold_node_upd (l : List Nat) (st : MonState) (t : ℚ) :
    (l.foldl (fun acc nid => update_node_snmp_status acc nid t) st).crontab = st.crontab := by
  induction l generalizing st with
  | nil => rfl
  | cons n ns ih => rw [List.foldl_cons, ih, crontab_node_upd]

theorem journal_save (st : MonState) (rows : List ResultRow) :
    (save_results_batch st rows).journal = st.journal := rfl

theorem journal_node_upd (st : MonState) (nid : Nat) (t : ℚ) :
    (update_node_snmp_status st nid t).journal = st.journal := rfl

theorem journal_cron_upd (st : MonState) (c : Nat) (s : Str) (j : Option Nat) (t : ℚ) :
    (update_crontab_status st c s j t).journal = st.journal := rfl

theorem journal_fold_node_upd (l : List Nat) (st : MonState) (t : ℚ) :
    (l.foldl (fun acc nid => update_node_snmp_status acc nid t) st).journal = st.journal := by
  induction l generalizing st with
  | nil => rfl
  | cons n ns ih => rw [List.foldl_cons, ih, journal_node_upd]

/-- Any row of the updated crontab that carries the targeted id shows the
written status, journal reference and `lastdt`. -/
theorem update_crontab_status_mem (st : MonState) (cronId : Nat) (status : Str)
    (jId : Option Nat) (now : ℚ) (row : CronRow)
    (hrow : row ∈ (update_crontab_status st cronId status jId now).crontab)
    (hid : row.id = cronId) :
    row.status = (if status = "COMPLETED".data ∨ status = "ERROR".data
                  then "ACTIVE".data else status) ∧
    row.j_id = jId ∧ row.lastdt = some now := by
  simp only [update_crontab_status, List.mem_map] at hrow
  obtain ⟨pre, hpre, heq⟩ := hrow
  by_cases hc : pre.id = cronId
  · rw [if_pos hc] at heq
    rw [← heq]
    exact ⟨rfl, rfl, rfl⟩
  · rw [if_neg hc] at heq
    rw [← heq] at hid
    exact absurd hid hc

theorem next_cron_upd (st : MonState) (c : Nat) (s : Str) (j : Option Nat) (t : ℚ) :
    (update_crontab_status st c s j t).nextJournalId = st.nextJournalId := rfl

theorem cje_snd (st : MonState) (tid : Nat) (t : ℚ) :
    (create_journal_entry st tid t).2 = st.nextJournalId := rfl

theorem cje_journal (st : MonState) (tid : Nat) (t : ℚ) :
    (create_journal_entry st tid t).1.journal =
      { id := st.nextJournalId, task_id := tid, startdt := t, enddt := none } :: st.journal := rfl

/-- The freshly inserted journal row is found closed after the final
`update_journal_entry`, whatever rows were already in the table. -/
theorem find_closed (journal : List JournalRow) (jid tid : Nat) (t0 t1 : ℚ) :
    List.find? (fun j => j.id == jid)
      (List.map (fun j => if j.id = jid then { j with enddt := some t1 } else j)
        ({ id := jid, task_id := tid, startdt := t0, enddt := none } :: journal)) =
      some { id := jid, task_id := tid, startdt := t0, enddt := some t1 } := by
  rw [List.map_cons, if_pos rfl, List.find?_cons_of_pos]
  simp

/-- Shared skeleton for C3/C8/C10: whatever the node set, request set,
handler id, stub flag and handler behaviour, `process_task` with a cron id
leaves the cron row ACTIVE, pointing at the journal opened for this run,
with `lastdt` equal to the end-of-run wall clock, and that journal row is
closed. -/
theorem process_task_closes (execRun : ExecRun) (run : HandlerRun) (st : MonState)
    (c : Nat) (taskId : Nat) (nodes : List NodeRow) (requests : List Request)
    (handlerId : Nat) (useStub : Bool) (t0 t1 : ℚ) :
    (∀ row ∈ (process_task execRun run st (some c) taskId nodes requests
        handlerId useStub t0 t1).crontab,
      row.id = c →
      row.status = "ACTIVE".data ∧ row.j_id = some st.nextJournalId ∧
        row.lastdt = some t1) ∧
    (process_task execRun run st (some c) taskId nodes requests
        handlerId useStub t0 t1).journal.find? (fun j => j.id == st.nextJournalId) =
      some { id := st.nextJournalId, task_id := taskId, startdt := t0, enddt := some t1 } := by
  have hjid : (create_journal_entry
      (update_crontab_status st c "RUNNING".data none t0) taskId t0).2 = st.nextJournalId := rfl
  constructor
  · intro row hrow hid
    simp only [process_task] at hrow
    rw [crontab_update_journal] at hrow
    by_cases hempty : nodes.isEmpty || requests.isEmpty
    · simp only [hempty, if_true] at hrow
      have := update_crontab_status_mem _ _ _ _ _ row hrow hid
      simpa using this
    · simp only [hempty, if_false] at hrow
      have := update_crontab_status_mem _ _ _ _ _ row hrow hid
      simpa using this
  · simp only [process_task, update_journal_entry]
    by_cases hempty : (nodes.isEmpty || requests.isEmpty) = true
    · rw [if_pos hempty]
      simp only [journal_cron_upd, cje_snd, next_cron_upd, cje_journal]
      exact find_closed st.journal st.nextJournalId taskId t0 t1
    · rw [if_neg hempty]
      by_cases hh : handlerId > 1
      · rw [if_pos hh]
        simp only [journal_cron_upd, journal_save, journal_fold_node_upd,
          cje_snd, next_cron_upd, cje_journal]
        exact find_closed st.journal st.nextJournalId taskId t0 t1
      · rw [if_neg hh]
        simp only [journal_cron_upd, journal_save,
          cje_snd, next_cron_upd, cje_journal]
        exact find_closed st.journal st.nextJournalId taskId t0 t1

end SNMPMonitor

namespace SNMPMonitor

/-- The per-request flag of `pwhRequests` is exactly "some request has raw
rows and the handler call returned a result". -/
theorem pwhRequests_flag (run : HandlerRun) (h : Handler) (n : NodeRow) (jid : Nat)
    (raw : List ResultRow) (now : ℚ) (rs : List Request) :
    (pwhRequests run h n jid raw now rs).2 =
      rs.any fun r =>
        !(raw_for raw n.id r.id).isEmpty &&
          exceptIsOk (run h n r jid (raw_for raw n.id r.id)) := by
  induction rs with
  | nil => rfl
  | cons r rest ih =>
    simp only [pwhRequests, List.any_cons]
    by_cases he : (raw_for raw n.id r.id).isEmpty
    · simp only [he, if_true, Bool.not_true, Bool.false_and, Bool.false_or]
      exact ih
    · simp only [he, if_false]
      cases hrun : run h n r jid (raw_for raw n.id r.id) with
      | ok res =>
        simp [hrun, exceptIsOk, he]
      | error e =>
        simp [hrun, exceptIsOk, ih]

end SNMPMonitor

/-- C7 (amended): in the task-run path, `update_node_snmp_status`
(updateNodeLastPolled) is called exactly for the nodes for which at least
one request had raw rows and the phase-2 handler call returned a result —
regardless of whether any of those requests actually succeeded (the
`err = null` guard of the claim exists only in `process_single_node`,
which the task-run path never invokes). -/
theorem c7_node_poll_update_condition (run : SNMPMonitor.HandlerRun) (useStub : Bool)
    (handlerId : Nat) (h : Handler) (nodes : List NodeRow) (requests : List Request)
    (jid : Nat) (raw : List ResultRow) (now : ℚ)
    (hok : HandlerFactory.create_handler handlerId useStub = .ok h)
    (hne2 : handlerId ≠ 2) :
    (SNMPMonitor.process_with_handler run useStub handlerId nodes requests jid raw now).2 =
      (nodes.filter fun n =>
        requests.any fun r =>
          !(SNMPMonitor.raw_for raw n.id r.id).isEmpty &&
            exceptIsOk (run h n r jid (SNMPMonitor.raw_for raw n.id r.id))).map
        (fun n => n.id) := by
  rw [SNMPMonitor.process_with_handler, hok]
  induction nodes with
  | nil => rfl
  | cons n ns ih =>
    simp only [SNMPMonitor.pwhNodes, List.filter_cons]
    rw [SNMPMonitor.pwhNode, if_neg hne2, SNMPMonitor.pwhRequests_flag]
    by_cases hc : (requests.any fun r =>
        !(SNMPMonitor.raw_for raw n.id r.id).isEmpty &&
          exceptIsOk (run h n r jid (SNMPMonitor.raw_for raw n.id r.id))) = true
    · simp only [hc, if_true, List.map_cons]
      rw [ih]
      simp
    · simp only [hc, if_false]
      rw [ih]
      simp [Bool.eq_false_iff.mpr hc]

/-- C7 counterexample: handler id 7 (Health) with the health handler's own
`process_raw_data` as phase-2 behaviour; the node's only raw row is an
error row (`err = 'timeout'`, no request succeeded), yet the node is
marked for `updateNodeLastPolled` — refuting the claimed
"if and only if at least one request succeeded". -/
theorem c7_polled_without_success :
    (SNMPMonitor.process_with_handler
        (fun _ n r j raw => .ok (HealthHandler.process_raw_data [] n r j raw 0).2)
        false 7 [{ id := 1 }] [{ id := 2, name := "sysName".data }] 9
        [{ node_id := 1, request_id := 2, journal_id := 9,
           key := some "error_sysName".data, err := some "timeout".data }] 0).2 = [1] ∧
    ({ node_id := 1, request_id := 2, journal_id := 9,
       key := some "error_sysName".data, err := some "timeout".data } : ResultRow).err ≠
      none := by
  constructor
  · decide
  · decide

/-- C7 witness: the amended characterisation evaluated on the
counterexample's input. -/
theorem c7_node_poll_update_condition_witness :
    (SNMPMonitor.process_with_handler
        (fun _ n r j raw => .ok (HealthHandler.process_raw_data [] n r j raw 0).2)
        false 7 [{ id := 1 }] [{ id := 2, name := "sysName".data }] 9
        [{ node_id := 1, request_id := 2, journal_id := 9,
           key := some "error_sysName".data, err := some "timeout".data }] 0).2 =
      (([{ id := 1 }] : List NodeRow).filter fun n =>
        ([{ id := 2, name := "sysName".data }] : List Request).any fun r =>
          !(SNMPMonitor.raw_for
              [{ node_id := 1, request_id := 2, journal_id := 9,
                 key := some "error_sysName".data, err := some "timeout".data }]
              n.id r.id).isEmpty &&
            exceptIsOk ((fun _ n r j raw =>
                .ok (HealthHandler.process_raw_data [] n r j raw 0).2 :
                SNMPMonitor.HandlerRun) Handler.health n r 9
              (SNMPMonitor.raw_for
                [{ node_id := 1, request_id := 2, journal_id := 9,
                   key := some "error_sysName".data, err := some "timeout".data }]
                n.id r.id))).map (fun n => n.id) :=
  c7_node_poll_update_condition
    (fun _ n r j raw => .ok (HealthHandler.process_raw_data [] n r j raw 0).2)
    false 7 .health [{ id := 1 }] [{ id := 2, name := "sysName".data }] 9
    [{ node_id := 1, request_id := 2, journal_id := 9,
       key := some "error_sysName".data, err := some "timeout".data }] 0
    rfl (by decide)

/-- C3: after `process_task` returns — success, handler exception (the
handler behaviour returning `Except.error`), or empty node/request sets —
the task's cron row is ACTIVE with `j_id` equal to the journal id opened
for this invocation, and that journal row has its `enddt` set. -/
theorem c3_process_task_restores (execRun : SNMPMonitor.ExecRun)
    (run : SNMPMonitor.HandlerRun) (st : MonState) (c taskId : Nat)
    (nodes : List NodeRow) (requests : List Request) (handlerId : Nat)
    (useStub : Bool) (t0 t1 : ℚ) :
    (∀ row ∈ (SNMPMonitor.process_task execRun run st (some c) taskId nodes requests
        handlerId useStub t0 t1).crontab,
      row.id = c → row.status = "ACTIVE".data ∧ row.j_id = some st.nextJournalId) ∧
    (SNMPMonitor.process_task execRun run st (some c) taskId nodes requests
        handlerId useStub t0 t1).journal.find? (fun j => j.id == st.nextJournalId) =
      some { id := st.nextJournalId, task_id := taskId, startdt := t0, enddt := some t1 } := by
  have h := SNMPMonitor.process_task_closes execRun run st c taskId nodes requests
    handlerId useStub t0 t1
  exact ⟨fun row hr hi => ⟨(h.1 row hr hi).1, (h.1 row hr hi).2.1⟩, h.2⟩

/-- C3 witness: a run whose handler raises on every call (the
handler-exception path) still ends with the cron row ACTIVE, `j_id = 1`
(the opened journal), and journal 1 closed at the end time. -/
theorem c3_process_task_restores_witness :
    ({ id := 1, status := "ACTIVE".data, j_id := some 1, lastdt := some 5 } : CronRow) ∈
      (SNMPMonitor.process_task
        (fun n r j => { node_id := n.id, request_id := r.id, journal_id := j })
        (fun _ _ _ _ _ => .error "boom".data)
        { crontab := [{ id := 1 }] } (some 1) 10 [{ id := 5 }]
        [{ id := 6, name := "ifDescr".data }] 7 false 0 5).crontab ∧
    (({ id := 1, status := "ACTIVE".data, j_id := some 1, lastdt := some 5 } : CronRow).status =
        "ACTIVE".data ∧
      ({ id := 1, status := "ACTIVE".data, j_id := some 1, lastdt := some 5 } : CronRow).j_id =
        some 1) ∧
    (SNMPMonitor.process_task
        (fun n r j => { node_id := n.id, request_id := r.id, journal_id := j })
        (fun _ _ _ _ _ => .error "boom".data)
        { crontab := [{ id := 1 }] } (some 1) 10 [{ id := 5 }]
        [{ id := 6, name := "ifDescr".data }] 7 false 0 5).journal.find?
      (fun j => j.id == 1) =
      some { id := 1, task_id := 10, startdt := 0, enddt := some 5 } := by
  have h := c3_process_task_restores
    (fun n r j => { node_id := n.id, request_id := r.id, journal_id := j })
    (fun _ _ _ _ _ => .error "boom".data)
    { crontab := [{ id := 1 }] } 1 10 [{ id := 5 }]
    [{ id := 6, name := "ifDescr".data }] 7 false 0 5
  exact ⟨by decide,
    h.1 { id := 1, status := "ACTIVE".data, j_id := some 1, lastdt := some 5 } (by decide) rfl,
    h.2⟩

/-- C8: an id outside the registry makes the factory fail with a
`ValueError` naming the id; in the task-run path that exception is caught
by `process_with_handler` (no processed rows, no node updates), and the
cron entry nevertheless returns to ACTIVE with the journal id while the
journal row receives its `enddt`. -/
theorem c8_unknown_handler_id (hid : Nat) (execRun : SNMPMonitor.ExecRun)
    (run : SNMPMonitor.HandlerRun) (st : MonState) (c taskId : Nat)
    (nodes : List NodeRow) (requests : List Request) (jid : Nat)
    (raw : List ResultRow) (now t0 t1 : ℚ)
    (hmem : hid ∉ validHandlerIds) :
    HandlerFactory.create_handler hid false =
      .error ("Unknown handler_id: ".data ++ natToStr hid) ∧
    SNMPMonitor.process_with_handler run false hid nodes requests jid raw now = ([], []) ∧
    (∀ row ∈ (SNMPMonitor.process_task execRun run st (some c) taskId nodes requests
        hid false t0 t1).crontab,
      row.id = c → row.status = "ACTIVE".data ∧ row.j_id = some st.nextJournalId) ∧
    (SNMPMonitor.process_task execRun run st (some c) taskId nodes requests
        hid false t0 t1).journal.find? (fun j => j.id == st.nextJournalId) =
      some { id := st.nextJournalId, task_id := taskId, startdt := t0, enddt := some t1 } := by
  have ha : HandlerFactory.create_handler hid false =
      .error ("Unknown handler_id: ".data ++ natToStr hid) := by
    simp only [HandlerFactory.create_handler, Bool.false_eq_true, if_false]
    split
    all_goals first
      | rfl
      | (simp [validHandlerIds] at hmem)
  have h := SNMPMonitor.process_task_closes execRun run st c taskId nodes requests
    hid false t0 t1
  refine ⟨ha, ?_, fun row hr hi => ⟨(h.1 row hr hi).1, (h.1 row hr hi).2.1⟩, h.2⟩
  rw [SNMPMonitor.process_with_handler, ha]

/-- C8 witness: handler id 42, stub mode off, one node and one request. -/
theorem c8_unknown_handler_id_witness :
    HandlerFactory.create_handler 42 false =
      .error ("Unknown handler_id: ".data ++ natToStr 42) ∧
    SNMPMonitor.process_with_handler (fun _ _ _ _ _ => .error "unused".data) false 42
      [{ id := 5 }] [{ id := 6, name := "ifDescr".data }] 1 [] 5 = ([], []) ∧
    ({ id := 1, status := "ACTIVE".data, j_id := some 1, lastdt := some 5 } : CronRow) ∈
      (SNMPMonitor.process_task
        (fun n r j => { node_id := n.id, request_id := r.id, journal_id := j })
        (fun _ _ _ _ _ => .error "unused".data)
        { crontab := [{ id := 1 }] } (some 1) 10 [{ id := 5 }]
        [{ id := 6, name := "ifDescr".data }] 42 false 0 5).crontab ∧
    (({ id := 1, status := "ACTIVE".data, j_id := some 1, lastdt := some 5 } : CronRow).status =
        "ACTIVE".data ∧
      ({ id := 1, status := "ACTIVE".data, j_id := some 1, lastdt := some 5 } : CronRow).j_id =
        some 1) ∧
    (SNMPMonitor.process_task
        (fun n r j => { node_id := n.id, request_id := r.id, journal_id := j })
        (fun _ _ _ _ _ => .error "unused".data)
        { crontab := [{ id := 1 }] } (some 1) 10 [{ id := 5 }]
        [{ id := 6, name := "ifDescr".data }] 42 false 0 5).journal.find?
      (fun j => j.id == 1) =
      some { id := 1, task_id := 10, startdt := 0, enddt := some 5 } := by
  have h := c8_unknown_handler_id 42
    (fun n r j => { node_id := n.id, request_id := r.id, journal_id := j })
    (fun _ _ _ _ _ => .error "unused".data)
    { crontab := [{ id := 1 }] } 1 10 [{ id := 5 }]
    [{ id := 6, name := "ifDescr".data }] 1 [] 5 0 5 (by decide)
  exact ⟨h.1, h.2.1, by decide,
    h.2.2.1 { id := 1, status := "ACTIVE".data, j_id := some 1, lastdt := some 5 }
      (by decide) rfl,
    h.2.2.2⟩

/-- C10 (amended): every `update_crontab_status` call — the RUNNING
transition at run start included — sets the matched cron row's `lastdt`
to the wall clock of that call; consequently, after `process_task`
completes, `lastdt` holds the time of the final ACTIVE transition (the
run's completion time), not the run's start time. -/
theorem c10_lastdt_every_call_and_final (st : MonState) (cronId : Nat) (status : Str)
    (jId : Option Nat) (now : ℚ) (execRun : SNMPMonitor.ExecRun)
    (run : SNMPMonitor.HandlerRun) (st2 : MonState) (c taskId : Nat)
    (nodes : List NodeRow) (requests : List Request) (handlerId : Nat)
    (useStub : Bool) (t0 t1 : ℚ) :
    (∀ row ∈ (SNMPMonitor.update_crontab_status st cronId status jId now).crontab,
      row.id = cronId → row.lastdt = some now) ∧
    (∀ row ∈ (SNMPMonitor.process_task execRun run st2 (some c) taskId nodes requests
        handlerId useStub t0 t1).crontab,
      row.id = c → row.lastdt = some t1) :=
  ⟨fun row hr hi =>
    (SNMPMonitor.update_crontab_status_mem st cronId status jId now row hr hi).2.2,
   fun row hr hi =>
    ((SNMPMonitor.process_task_closes execRun run st2 c taskId nodes requests
        handlerId useStub t0 t1).1 row hr hi).2.2⟩

/-- C10 witness: the RUNNING transition writes `lastdt = 2`; a full run
from t=0 to t=5 leaves `lastdt = 5`. -/
theorem c10_lastdt_every_call_and_final_witness :
    ({ id := 3, status := "RUNNING".data, j_id := none, lastdt := some 2 } : CronRow) ∈
      (SNMPMonitor.update_crontab_status { crontab := [{ id := 3 }] } 3 "RUNNING".data
        none 2).crontab ∧
    ({ id := 3, status := "RUNNING".data, j_id := none, lastdt := some 2 } : CronRow).lastdt =
      some 2 ∧
    ({ id := 1, status := "ACTIVE".data, j_id := some 1, lastdt := some 5 } : CronRow) ∈
      (SNMPMonitor.process_task
        (fun n r j => { node_id := n.id, request_id := r.id, journal_id := j })
        (fun _ n r j _ => .ok { node_id := n.id, request_id := r.id, journal_id := j })
        { crontab := [{ id := 1 }] } (some 1) 10 [{ id := 5 }] [{ id := 6 }] 1 false
        0 5).crontab ∧
    ({ id := 1, status := "ACTIVE".data, j_id := some 1, lastdt := some 5 } : CronRow).lastdt =
      some 5 := by
  have h := c10_lastdt_every_call_and_final { crontab := [{ id := 3 }] } 3 "RUNNING".data
    none 2
    (fun n r j => { node_id := n.id, request_id := r.id, journal_id := j })
    (fun _ n r j _ => .ok { node_id := n.id, request_id := r.id, journal_id := j })
    { crontab := [{ id := 1 }] } 1 10 [{ id := 5 }] [{ id := 6 }] 1 false 0 5
  exact ⟨by decide,
    h.1 { id := 3, status := "RUNNING".data, j_id := none, lastdt := some 2 } (by decide) rfl,
    by decide,
    h.2 { id := 1, status := "ACTIVE".data, j_id := some 1, lastdt := some 5 } (by decide) rfl⟩

/-- C10 counterexample: a run started at t=0 and finished at t=5 leaves
`lastdt = 5` — the completion time, not the claimed start time 0: the
final ACTIVE transition overwrites the `lastdt` the RUNNING transition
wrote at run start. -/
theorem c10_lastdt_not_start_time :
    ((SNMPMonitor.process_task
        (fun n r j => { node_id := n.id, request_id := r.id, journal_id := j })
        (fun _ n r j _ => .ok { node_id := n.id, request_id := r.id, journal_id := j })
        { crontab := [{ id := 1 }] } (some 1) 10 [{ id := 5 }] [{ id := 6 }] 1 false
        0 5).crontab.find? (fun row => row.id == 1)).map (fun row => row.lastdt) =
      some (some 5) ∧
    ¬ (((SNMPMonitor.process_task
        (fun n r j => { node_id := n.id, request_id := r.id, journal_id := j })
        (fun _ n r j _ => .ok { node_id := n.id, request_id := r.id, journal_id := j })
        { crontab := [{ id := 1 }] } (some 1) 10 [{ id := 5 }] [{ id := 6 }] 1 false
        0 5).crontab.find? (fun row => row.id == 1)).map (fun row => row.lastdt) =
      some (some 0)) := by
  constructor
  · decide
  · decide
